import Mathlib

/-!
Shallow embedding of the intent-routing and agent-orchestration layer of the
repository (src/agents/router_agent.py, code_gen_agent.py, pdf_agent.py,
csv_agent.py, tools.py).

External effects (the Groq completion client, json.loads, pandas, the
filesystem, datetime, the log sink) are modelled as explicit outcome
parameters: a remote call or an I/O operation is an `Except String α`
value supplied by the environment, where `.error e` stands for a raised
Python exception with message `e`.  Python values that flow through the
untyped dictionaries are modelled by the inductive `Val`; a Python `dict`
is an association list `Dict`.  A Python function body that can raise is
embedded as `Except String Dict`; the enclosing `try/except` boundary
turns it into a total function returning `Dict`.
-/

namespace AgentFlow

/-- A Python number as an unnormalized fraction `n / d` (`d > 0` for every
value the program produces).  The counts appearing here are integers;
confidence scores are decimal literals, which fractions represent exactly.
Kept unnormalized so that every comparison evaluates inside the kernel. -/
structure PyNum where
  n : Int
  d : Nat

/-- The integer `k` as a `PyNum`. -/
def PyNum.int (k : Int) : PyNum := ⟨k, 1⟩

/-- Comparison `a < b` by cross-multiplication. -/
def PyNum.blt (a b : PyNum) : Bool :=
  a.n * b.d < b.n * a.d

/-- Numeric equality `a == b` by cross-multiplication. -/
def PyNum.beq (a b : PyNum) : Bool :=
  a.n * b.d = b.n * a.d

/-- Model of a Python value as it flows through the agents' dictionaries. -/
inductive Val where
  | str : String → Val
  | num : PyNum → Val
  | bool : Bool → Val
  | none : Val
  | list : List Val → Val
  | dict : List (String × Val) → Val

/-- The integer `k` as a Python value. -/
def Val.int (k : Int) : Val := .num (PyNum.int k)

/-- A Python dictionary with string keys. -/
abbrev Dict := List (String × Val)

/-- Lookup `d[k]`, as an `Option`. -/
def dictGet? (d : Dict) (k : String) : Option Val :=
  match d with
  | [] => Option.none
  | (k₂, v) :: rest => if k₂ = k then some v else dictGet? rest k

/-- Python `d.get(k, default)`. -/
def dictGetD (d : Dict) (k : String) (default : Val) : Val :=
  (dictGet? d k).getD default

/-- Python `d[k]`: raises `KeyError` when the key is absent. -/
def dictGetExn (d : Dict) (k : String) : Except String Val :=
  match dictGet? d k with
  | some v => Except.ok v
  | Option.none => Except.error ("KeyError: " ++ k)

/-- Python `d[k] = v`: update in place when the key exists, else append
(preserving insertion order, as Python dicts do). -/
def dictSet (d : Dict) (k : String) (v : Val) : Dict :=
  if (dictGet? d k).isSome then
    d.map (fun p => if p.1 = k then (k, v) else p)
  else d ++ [(k, v)]

/-- Python `v == s` for a string literal `s`: true only when `v` is that string. -/
def Val.isStrEq (v : Val) (s : String) : Bool :=
  match v with
  | .str t => t = s
  | _ => false

/-- Python `v == n` for an `int` literal `n` (bools compare as 0/1). -/
def Val.eqInt (v : Val) (n : Int) : Bool :=
  match v with
  | .num q => q.beq (PyNum.int n)
  | .bool b => (if b then (1 : Int) else 0) = n
  | _ => false

/-- A string-method call (`v.lower()`, `v.split()`, ...) on a non-string
raises `AttributeError`. -/
def Val.asStr : Val → Except String String
  | .str s => Except.ok s
  | _ => Except.error "AttributeError"

/-- Numeric view used by Python comparison `v < 0.6` (bools are numeric);
`Option.none` marks the values for which the comparison raises `TypeError`. -/
def Val.asNum? : Val → Option PyNum
  | .num q => some q
  | .bool b => some (PyNum.int (if b then 1 else 0))
  | _ => Option.none

/-- Python `str(v)` as used inside f-strings.  Container and non-integral
reprs are abbreviated (no envelope field checked by a claim renders one). -/
def Val.pyShow : Val → String
  | .str s => s
  | .num q =>
    if q.d = 1 then toString q.n
    else toString q.n ++ "/" ++ toString q.d
  | .bool b => if b then "True" else "False"
  | .none => "None"
  | .list _ => "<list>"
  | .dict _ => "<dict>"

/-! ### Python string primitives

The embedding works on `List Char` with structural recursion throughout, so
that every definition evaluates inside the kernel (`decide`/`rfl` on
concrete inputs).  The ASCII view of `lower`/`isalnum` suffices for the
strings the claims exercise. -/

/-- Substring test on character lists (`sub in s` for Python strings). -/
def listContainsSub (l sub : List Char) : Bool :=
  match l with
  | [] => sub.isEmpty
  | _ :: rest => sub.isPrefixOf l || listContainsSub rest sub

/-- Python `sub in s`. -/
def pyContains (s sub : String) : Bool :=
  listContainsSub s.data sub.data

/-- Worker for `pySplitOn`: leftmost non-overlapping split on the separator
`sh :: st`; `fuel` bounds the scan by the input length, keeping the
recursion structural. -/
def splitOnAux (sh : Char) (st : List Char) :
    Nat → List Char → List Char → List (List Char)
  | _, [], acc => [acc.reverse]
  | 0, rest, acc => [acc.reverse ++ rest]
  | fuel + 1, c :: rest, acc =>
    if c = sh && st.isPrefixOf rest then
      acc.reverse :: splitOnAux sh st fuel (rest.drop st.length) []
    else splitOnAux sh st fuel rest (c :: acc)

/-- Python `s.split(sep)` for a non-empty separator. -/
def pySplitOn (s sep : String) : List String :=
  match sep.data with
  | [] => [s]
  | sh :: st => (splitOnAux sh st s.data.length s.data []).map String.mk

/-- Worker for `pySplitWs`: split on whitespace runs, dropping empties. -/
def splitWsAux : List Char → List Char → List (List Char)
  | [], acc => if acc.isEmpty then [] else [acc.reverse]
  | c :: rest, acc =>
    if c.isWhitespace then
      if acc.isEmpty then splitWsAux rest []
      else acc.reverse :: splitWsAux rest []
    else splitWsAux rest (c :: acc)

/-- Python `s.split()` — split on whitespace runs, dropping empty pieces. -/
def pySplitWs (s : String) : List String :=
  (splitWsAux s.data []).map String.mk

/-- Python `sep.join(parts)`. -/
def pyJoin (sep : String) (parts : List String) : String :=
  String.mk (List.intercalate sep.data (parts.map String.data))

/-- Python `s.lower()` (ASCII). -/
def pyLower (s : String) : String :=
  String.mk (s.data.map Char.toLower)

/-- Python `s.strip()`. -/
def pyStrip (s : String) : String :=
  String.mk
    (((s.data.dropWhile Char.isWhitespace).reverse.dropWhile
        Char.isWhitespace).reverse)

/-- Python `s[:n]`. -/
def pyTake (s : String) (n : Nat) : String :=
  String.mk (s.data.take n)

/-- Python `s.startswith(pre)`. -/
def pyStartsWith (s pre : String) : Bool :=
  pre.data.isPrefixOf s.data

/-- Python `s.endswith(suf)`. -/
def pyEndsWith (s suf : String) : Bool :=
  suf.data.isSuffixOf s.data

/-- Python `s.replace(old, new)` for a non-empty `old`. -/
def pyReplace (s old new : String) : String :=
  pyJoin new (pySplitOn s old)

/-- Python `len(s)`. -/
def pyLen (s : String) : Nat :=
  s.data.length

/-- Python `s.isalnum()` (ASCII view of the alphanumeric test). -/
def pyIsAlnum (s : String) : Bool :=
  !s.data.isEmpty && s.data.all Char.isAlphanum

/-- Python `Path(p).name`: the final path component. -/
def pyPathName (p : String) : String :=
  (pySplitOn p "/").getLastD p

/-- Python `Path(p).stem`: final component with its last extension removed. -/
def pyPathStem (p : String) : String :=
  let n := pyPathName p
  match (pySplitOn n ".").dropLast with
  | [] => n
  | parts => pyJoin "." parts

/-- `status` field of an envelope equals the given string. -/
def isStatus (d : Dict) (s : String) : Prop :=
  dictGet? d "status" = some (.str s)

/-- The universal envelope invariant: `status` is `success` or `error`. -/
def okStatus (d : Dict) : Prop :=
  isStatus d "success" ∨ isStatus d "error"

/-- The envelope carries a string `mode` tag. -/
def hasMode (d : Dict) : Prop :=
  ∃ m, dictGet? d "mode" = some (.str m)

/-! ## FileSystemTools (src/agents/tools.py) -/

/-- The filesystem helper object; `baseDir` is the base directory path. -/
structure FileSystemTools where
  baseDir : String

namespace FileSystemTools

/-- `base_dir / 'generated_code'`. -/
def generatedCodeDir (fs : FileSystemTools) : String :=
  fs.baseDir ++ "/generated_code"

/-- `base_dir / 'raw_text'`. -/
def rawTextDir (fs : FileSystemTools) : String :=
  fs.baseDir ++ "/raw_text"

/-- `base_dir / 'reports'`. -/
def reportsDir (fs : FileSystemTools) : String :=
  fs.baseDir ++ "/reports"

/-- The unsafe characters replaced by `_` in `_sanitize_filename`. -/
def unsafeChars : List Char :=
  ['<', '>', ':', '\"', '/', '\\', '|', '?', '*']

/-- `FileSystemTools._sanitize_filename`.  `ts` is the timestamp string the
source obtains from `datetime.now()` (external), used only when the name is
empty or whitespace. -/
def sanitizeFilename (ts : String) (filename : String) : String :=
  let f := unsafeChars.foldl
    (fun acc c => pyReplace acc (String.mk [c]) "_") filename
  let f := if pyLen f > 200 then pyTake f 200 else f
  if f = "" || f.data.all Char.isWhitespace then "file_" ++ ts else f

/-- The fixed language→extension table of `save_code_to_file`. -/
def extensionsTable : List (String × String) :=
  [("python", ".py"), ("javascript", ".js"), ("java", ".java"),
   ("cpp", ".cpp"), ("c", ".c"), ("html", ".html"), ("css", ".css"),
   ("sql", ".sql")]

/-- `extensions.get(language.lower(), '.txt')`. -/
def extFor (language : String) : String :=
  (extensionsTable.lookup (pyLower language)).getD ".txt"

/-- `FileSystemTools.save_code_to_file`.  `write` is the outcome of the
`open`/`f.write` filesystem effect; `language` flows in untyped from the
intent dictionary, and `.lower()` on a non-string raises inside the `try`. -/
def saveCodeToFile (fs : FileSystemTools) (ts : String)
    (write : Except String Unit) (_code : String) (filename : String)
    (language : Val) : Dict :=
  match language.asStr with
  | Except.error e =>
    [("status", .str "error"), ("filepath", Val.none),
     ("message", .str ("Error saving code: " ++ e))]
  | Except.ok lang =>
    let safe := sanitizeFilename ts filename
    let ext := extFor lang
    let safe := if pyEndsWith safe ext then safe else safe ++ ext
    let filepath := fs.generatedCodeDir ++ "/" ++ safe
    match write with
    | Except.error e =>
      [("status", .str "error"), ("filepath", Val.none),
       ("message", .str ("Error saving code: " ++ e))]
    | Except.ok _ =>
      [("status", .str "success"), ("filepath", .str filepath),
       ("message", .str ("Code saved successfully to " ++ safe))]

/-- What one extraction backend (pdfplumber, or the PyPDF2 fallback) yields
when it does not raise: the page count and the per-page `extract_text()`
results (`""` standing for a page with no text, dropped by `if text:`). -/
structure PdfData where
  pageCount : Nat
  pageTexts : List String

/-- `FileSystemTools.extract_pdf_text`: try pdfplumber, fall back to PyPDF2
on any exception, and catch everything else into an error envelope. -/
def extractPdfText (plumber pypdf : Except String PdfData) : Dict :=
  let backend : Except String PdfData :=
    match plumber with
    | Except.ok d => Except.ok d
    | Except.error _ => pypdf
  match backend with
  | Except.error e =>
    [("status", .str "error"), ("text", .str ""),
     ("page_count", Val.int 0), ("word_count", Val.int 0),
     ("message", .str ("Error extracting PDF: " ++ e))]
  | Except.ok d =>
    let fullText := pyJoin "\n\n" (d.pageTexts.filter (· ≠ ""))
    let wordCount := (pySplitWs fullText).length
    [("status", .str "success"), ("text", .str fullText),
     ("page_count", Val.int d.pageCount), ("word_count", Val.int wordCount),
     ("message", .str ("Extracted " ++ toString wordCount ++ " words from "
        ++ toString d.pageCount ++ " pages"))]

/-- `FileSystemTools.save_text_to_file`; `write` is the filesystem effect. -/
def saveTextToFile (fs : FileSystemTools) (write : Except String Unit)
    (_text : String) (originalFilename : String) : Dict :=
  let txtFilename := pyPathStem originalFilename ++ ".txt"
  let filepath := fs.rawTextDir ++ "/" ++ txtFilename
  match write with
  | Except.error e =>
    [("status", .str "error"), ("filepath", Val.none),
     ("message", .str ("Error saving text: " ++ e))]
  | Except.ok _ =>
    [("status", .str "success"), ("filepath", .str filepath),
     ("message", .str ("Text saved to " ++ txtFilename))]

/-- The structural profile pandas computes from a readable CSV: the data
behind `df.shape`, `df.columns`, `df.head(5)`, `df.dtypes`, the missing
counts and the numeric stats (the arithmetic itself is external). -/
structure CsvProfile where
  numRows : Nat
  numCols : Nat
  columns : List String
  dtypes : Dict
  sampleData : List Dict
  missingValues : Dict
  numericStats : Dict

/-- `FileSystemTools.analyze_csv_structure`; `read` is the outcome of
`pd.read_csv` and the profiling computations. -/
def analyzeCsvStructure (read : Except String CsvProfile) : Dict :=
  match read with
  | Except.error e =>
    [("status", .str "error"),
     ("message", .str ("Error analyzing CSV: " ++ e))]
  | Except.ok p =>
    [("status", .str "success"), ("num_rows", Val.int p.numRows),
     ("num_cols", Val.int p.numCols),
     ("columns", .list (p.columns.map Val.str)),
     ("dtypes", .dict p.dtypes),
     ("sample_data", .list (p.sampleData.map Val.dict)),
     ("missing_values", .dict p.missingValues),
     ("numeric_stats", .dict p.numericStats),
     ("message", .str ("Analyzed CSV with " ++ toString p.numRows
        ++ " rows and " ++ toString p.numCols ++ " columns"))]

/-- `FileSystemTools.calculate_detailed_statistics`; the pandas statistics
payload (floats, quantiles) is external, supplied as `outcome`. -/
def calculateDetailedStatistics (outcome : Except String Val) : Dict :=
  match outcome with
  | Except.ok stats =>
    [("status", .str "success"), ("statistics", stats)]
  | Except.error e =>
    [("status", .str "error"),
     ("message", .str ("Error calculating statistics: " ++ e))]

/-- `FileSystemTools.check_data_quality`; the pandas quality payload is
external, supplied as `outcome`. -/
def checkDataQuality (outcome : Except String Val) : Dict :=
  match outcome with
  | Except.ok q =>
    [("status", .str "success"), ("quality_report", q)]
  | Except.error e =>
    [("status", .str "error"),
     ("message", .str ("Error checking data quality: " ++ e))]

/-- `FileSystemTools.generate_csv_report`: the report filename is
`{csv_name}_report_{timestamp}.html` under the reports directory; `ts` is
the `datetime.now()` timestamp string (external) and `write` the outcome
of rendering and writing the HTML file. -/
def generateCsvReport (fs : FileSystemTools) (ts : String)
    (write : Except String Unit) (csvPath : String) : Dict :=
  let reportFilename := pyPathStem csvPath ++ "_report_" ++ ts ++ ".html"
  let reportPath := fs.reportsDir ++ "/" ++ reportFilename
  match write with
  | Except.ok _ =>
    [("status", .str "success"), ("report_path", .str reportPath),
     ("report_filename", .str reportFilename)]
  | Except.error e =>
    [("status", .str "error"),
     ("message", .str ("Error generating report: " ++ e))]

end FileSystemTools

/-! ## CodeGenerationAgent (src/agents/code_gen_agent.py) -/

namespace CodeGenerationAgent

/-- The line scanner of `generate_code` lines 42–51: toggle `in_code_block`
on every line starting with a fence marker (the fence line itself is
skipped), keep lines emitted while inside. -/
def fenceScan (inside : Bool) : List String → List String
  | [] => []
  | l :: rest =>
    if pyStartsWith l "```" then fenceScan (!inside) rest
    else if inside then l :: fenceScan inside rest
    else fenceScan inside rest

/-- The extraction step of `generate_code` (lines 41–51): applied only when
the response contains a fence marker, otherwise the text is used verbatim. -/
def extractFencedCode (text : String) : String :=
  if pyContains text "```" then
    pyJoin "\n" (fenceScan false (pySplitOn text "\n"))
  else text

/-- `CodeGenerationAgent._review_code`.  The review completion call is the
environment outcome `resp`; on any exception the literal
review-unavailable string with the failure reason is substituted. -/
def reviewCode (resp : Except String String) : String :=
  match resp with
  | Except.ok review => pyStrip review
  | Except.error e => "Review unavailable: " ++ e

/-- The fixed stop-word set of `_generate_filename`. -/
def stopWords : List String :=
  ["a", "an", "the", "to", "for", "of", "in", "on", "with",
   "write", "create", "make", "code"]

/-- `CodeGenerationAgent._generate_filename` (the `language` argument of
the source is unused by its body). -/
def generateFilename (prompt : String) : String :=
  let words := pySplitWs (pyLower prompt)
  let meaningfulWords := words.filter
    (fun w => !(stopWords.contains w) && pyIsAlnum w)
  let filenameParts := meaningfulWords.take 4
  let filenameParts :=
    if filenameParts.isEmpty then ["generated_code"] else filenameParts
  let filename := pyJoin "_" filenameParts
  if pyLen filename > 50 then pyTake filename 50 else filename

/-- Environment of one `generate_code` run: the generation completion call,
the review completion call, the code-file write, and the timestamp string
feeding `_sanitize_filename` (all external effects). -/
structure CodeGenEnv where
  genResp : Except String String
  reviewResp : Except String String
  writeCode : Except String Unit
  ts : String

/-- `CodeGenerationAgent.generate_code`: generate, extract fenced code,
review (its failure absorbed by `_review_code`), derive a filename, save
via `FileSystemTools.save_code_to_file` (whose failure is absorbed into
its own envelope), and return the result envelope; the enclosing
`try/except` converts an escaped exception into the error envelope with an
empty `code` field. -/
def generateCode (fs : FileSystemTools) (env : CodeGenEnv)
    (userPrompt : String) (language : Val) : Dict :=
  match env.genResp with
  | Except.error e =>
    [("status", .str "error"), ("code", .str ""), ("review", .str ""),
     ("filepath", Val.none),
     ("message", .str ("Error generating code: " ++ e))]
  | Except.ok raw =>
    let generatedCode := extractFencedCode (pyStrip raw)
    let reviewResult := reviewCode env.reviewResp
    let filename := generateFilename userPrompt
    let saveResult :=
      fs.saveCodeToFile env.ts env.writeCode generatedCode filename language
    [("status", .str "success"), ("code", .str generatedCode),
     ("review", .str reviewResult),
     ("filepath", dictGetD saveResult "filepath" Val.none),
     ("filename", .str filename), ("language", language),
     ("message", .str "Code generated, reviewed, and saved successfully")]

end CodeGenerationAgent

/-! ## PDFExtractionAgent (src/agents/pdf_agent.py) -/

namespace PDFExtractionAgent

/-- Environment of one `process_pdf` run: the two extraction backends, the
raw-text file write, and the summary completion call. -/
structure PdfEnv where
  plumber : Except String FileSystemTools.PdfData
  pypdf : Except String FileSystemTools.PdfData
  writeText : Except String Unit
  summaryResp : Except String String

/-- `PDFExtractionAgent._generate_summary`: on success wrap the model text
with the page/word counts; on any exception fall back to the sentence
stating only the counts. -/
def generateSummary (resp : Except String String)
    (pageCount wordCount : Val) : String :=
  match resp with
  | Except.ok s =>
    "Document Summary (" ++ pageCount.pyShow ++ " pages, "
      ++ wordCount.pyShow ++ " words): " ++ pyStrip s
  | Except.error _ =>
    "Extracted " ++ wordCount.pyShow ++ " words from "
      ++ pageCount.pyShow ++ " pages."

/-- The `try` body of `PDFExtractionAgent.process_pdf`.  The path arrives
untyped from the upload dictionary; `Path(pdf_path)` on a non-string
raises inside this `try`. -/
def processPdfBody (fs : FileSystemTools) (env : PdfEnv)
    (pdfPath : Val) : Except String Dict :=
  let extraction := FileSystemTools.extractPdfText env.plumber env.pypdf
  match dictGetExn extraction "status" with
  | Except.error e => Except.error e
  | Except.ok st =>
    if st.isStrEq "success" then
      match dictGetExn extraction "text" with
      | Except.error e => Except.error e
      | Except.ok textV =>
        match dictGetExn extraction "page_count" with
        | Except.error e => Except.error e
        | Except.ok pageCount =>
          match dictGetExn extraction "word_count" with
          | Except.error e => Except.error e
          | Except.ok wordCount =>
            match textV.asStr with
            | Except.error e => Except.error e
            | Except.ok text =>
              match pdfPath.asStr with
              | Except.error e => Except.error e
              | Except.ok p =>
                let saveResult :=
                  fs.saveTextToFile env.writeText text (pyPathName p)
                let filepath := dictGetD saveResult "filepath" Val.none
                let summary :=
                  generateSummary env.summaryResp pageCount wordCount
                Except.ok [("status", .str "success"), ("text", .str text),
                  ("page_count", pageCount), ("word_count", wordCount),
                  ("filepath", filepath), ("summary", .str summary),
                  ("message", .str ("Extracted " ++ wordCount.pyShow
                     ++ " words from " ++ pageCount.pyShow
                     ++ " pages and saved to " ++ filepath.pyShow))]
    else
      Except.ok extraction

/-- `PDFExtractionAgent.process_pdf`, with its enclosing `try/except`. -/
def processPdf (fs : FileSystemTools) (env : PdfEnv)
    (pdfPath : Val) : Dict :=
  match processPdfBody fs env pdfPath with
  | Except.ok d => d
  | Except.error e =>
    [("status", .str "error"),
     ("message", .str ("Error processing PDF: " ++ e))]

end PDFExtractionAgent

/-! ## CSVAnalysisAgent (src/agents/csv_agent.py) -/

namespace CSVAnalysisAgent

/-- Markdown-fence stripping shared by `_generate_summary_and_suggestions`
and `RouterAgent._detect_intent`: take the piece after the first
` ```json ` (or, failing that, the first ` ``` `) up to the next fence,
else the text unchanged. -/
def extractJsonBlock (t : String) : String :=
  if pyContains t "```json" then
    pyStrip ((pySplitOn ((pySplitOn t "```json").getD 1 "") "```").getD 0 "")
  else if pyContains t "```" then
    pyStrip ((pySplitOn ((pySplitOn t "```").getD 1 "") "```").getD 0 "")
  else t

/-- Environment of one `analyze_csv` run: the pandas profiling outcome, the
summary/suggestion completion call, and `json.loads` (Python stdlib,
external: maps the candidate text to a JSON value or raises). -/
structure CsvEnv where
  readCsv : Except String FileSystemTools.CsvProfile
  summaryResp : Except String String
  jsonLoads : String → Except String Val

/-- The `try` body of `_generate_summary_and_suggestions`: the prompt is
built from `analysis['columns']` and `analysis['sample_data']` (whose
absence raises), the completion call responds, fences are stripped and the
candidate is parsed by `json.loads`. -/
def generateSummaryAndSuggestionsTry (env : CsvEnv)
    (analysis : Dict) : Except String Val :=
  match dictGetExn analysis "columns" with
  | Except.error e => Except.error e
  | Except.ok _ =>
    match dictGetExn analysis "sample_data" with
    | Except.error e => Except.error e
    | Except.ok _ =>
      match env.summaryResp with
      | Except.error e => Except.error e
      | Except.ok responseText =>
        env.jsonLoads (extractJsonBlock (pyStrip responseText))

/-- The deterministic fallback of `_generate_summary_and_suggestions`:
templated summary from the row/column counts plus the fixed canonical
4-suggestion list (reading the counts out of `analysis` raises if they are
absent, exactly as the source's `except` block would). -/
def fallbackSummaryAndSuggestions (analysis : Dict) : Except String Val :=
  match dictGetExn analysis "num_cols" with
  | Except.error e => Except.error e
  | Except.ok nc =>
    match dictGetExn analysis "num_rows" with
    | Except.error e => Except.error e
    | Except.ok nr =>
      Except.ok (Val.dict
    [("content_summary", .str ("A CSV file with " ++ nc.pyShow
        ++ " columns and " ++ nr.pyShow ++ " rows")),
     ("suggestions", .list
       [.dict [("id", Val.int 1), ("title", .str "View Statistics"),
          ("description", .str "Get statistical summary of numeric columns")],
        .dict [("id", Val.int 2), ("title", .str "Check Data Quality"),
          ("description", .str "Identify missing values and data issues")],
        .dict [("id", Val.int 3), ("title", .str "Export Filtered Data"),
          ("description", .str "Filter and export specific rows/columns")],
        .dict [("id", Val.int 4), ("title", .str "Generate Report"),
          ("description", .str "Create a summary report of the data")]])])

/-- `CSVAnalysisAgent._generate_summary_and_suggestions`: the `try` body,
with any exception diverted to the fixed fallback. -/
def generateSummaryAndSuggestions (env : CsvEnv)
    (analysis : Dict) : Except String Val :=
  match generateSummaryAndSuggestionsTry env analysis with
  | Except.ok v => Except.ok v
  | Except.error _ => fallbackSummaryAndSuggestions analysis

/-- Python subscript `v[k]` on an arbitrary value: key lookup on a dict
(`KeyError` when absent), `TypeError` otherwise. -/
def valGetExn (v : Val) (k : String) : Except String Val :=
  match v with
  | .dict d => dictGetExn d k
  | _ => Except.error "TypeError"

/-- Python slice `v[:3]` (lists and strings slice; other values raise). -/
def pySliceThree (v : Val) : Except String Val :=
  match v with
  | .list vs => Except.ok (.list (vs.take 3))
  | .str s => Except.ok (.str (pyTake s 3))
  | _ => Except.error "TypeError"

/-- The `try` body of `CSVAnalysisAgent.analyze_csv`.  The path arrives
untyped from the upload dictionary; `Path(csv_path)` on a non-string
raises inside this `try`. -/
def analyzeCsvBody (env : CsvEnv) (csvPath : Val) : Except String Dict :=
  let analysis := FileSystemTools.analyzeCsvStructure env.readCsv
  match dictGetExn analysis "status" with
  | Except.error e => Except.error e
  | Except.ok st =>
    if st.isStrEq "success" then
      match generateSummaryAndSuggestions env analysis with
      | Except.error e => Except.error e
      | Except.ok ss =>
        match csvPath.asStr with
        | Except.error e => Except.error e
        | Except.ok p =>
          match valGetExn ss "content_summary" with
          | Except.error e => Except.error e
          | Except.ok contentSummary =>
            match valGetExn ss "suggestions" with
            | Except.error e => Except.error e
            | Except.ok suggestions =>
              match dictGetExn analysis "num_rows" with
              | Except.error e => Except.error e
              | Except.ok numRows =>
                match dictGetExn analysis "num_cols" with
                | Except.error e => Except.error e
                | Except.ok numCols =>
                  match dictGetExn analysis "columns" with
                  | Except.error e => Except.error e
                  | Except.ok columns =>
                    match dictGetExn analysis "sample_data" with
                    | Except.error e => Except.error e
                    | Except.ok sampleData =>
                      match pySliceThree sampleData with
                      | Except.error e => Except.error e
                      | Except.ok sampleThree =>
                        Except.ok [("status", .str "success"),
                          ("filename", .str (pyPathName p)),
                          ("num_rows", numRows), ("num_cols", numCols),
                          ("columns", columns),
                          ("content_summary", contentSummary),
                          ("suggestions", suggestions),
                          ("sample_data", sampleThree),
                          ("message", .str "CSV analyzed successfully")]
    else
      Except.ok analysis

/-- `CSVAnalysisAgent.analyze_csv`, with its enclosing `try/except`. -/
def analyzeCsv (env : CsvEnv) (csvPath : Val) : Dict :=
  match analyzeCsvBody env csvPath with
  | Except.ok d => d
  | Except.error e =>
    [("status", .str "error"),
     ("message", .str ("Error analyzing CSV: " ++ e))]

/-! ### The action dispatcher (`CSVAnalysisAgent.execute_action`) -/

/-- Environment of one `execute_action` run: the pandas computations and
filesystem writes of the four handlers, the external renderings of the
statistics/quality summaries (float formatting), and the date feeding the
daily log file name.  The log sink itself (logging_utils.py) only appends
and never raises; it is modelled as effect-free. -/
structure ActionEnv where
  stats : Except String Val
  statsSummary : String
  quality : Except String Val
  qualitySummary : String
  filterRows : Except String Nat
  filterWrite : Except String Unit
  reportTs : String
  reportWrite : Except String Unit
  logDate : String

/-- The daily log file path reported by `CSVActionLogger.get_log_file_path`:
`base_dir/logs/csv_actions_{date}.log`. -/
def logFilePath (fs : FileSystemTools) (env : ActionEnv) : String :=
  fs.baseDir ++ "/logs/csv_actions_" ++ env.logDate ++ ".log"

/-- `CSVAnalysisAgent._execute_statistics`: delegate to
`calculate_detailed_statistics`, pass its error envelope through, else wrap
the statistics and their formatted summary in a success envelope. -/
def executeStatistics (env : ActionEnv) : Dict :=
  match env.stats with
  | Except.error e =>
    [("status", .str "error"),
     ("message", .str ("Error calculating statistics: " ++ e))]
  | Except.ok stats =>
    [("status", .str "success"), ("action", .str "Statistics Calculation"),
     ("summary", .str env.statsSummary), ("detailed_stats", stats),
     ("output", .str env.statsSummary),
     ("message", .str "Statistics calculated successfully")]

/-- `CSVAnalysisAgent._execute_quality_check`: delegate to
`check_data_quality`, pass its error envelope through, else wrap the
quality report and its formatted summary in a success envelope. -/
def executeQualityCheck (env : ActionEnv) : Dict :=
  match env.quality with
  | Except.error e =>
    [("status", .str "error"),
     ("message", .str ("Error checking data quality: " ++ e))]
  | Except.ok q =>
    [("status", .str "success"), ("action", .str "Data Quality Check"),
     ("summary", .str env.qualitySummary), ("quality_report", q),
     ("output", .str env.qualitySummary),
     ("message", .str "Data quality check completed successfully")]

/-- `CSVAnalysisAgent._execute_filter`: read the table, export the first 10
rows to `reports/{csv_name}_sample_10.csv`, and report the sample path and
total row count; any exception becomes an error envelope. -/
def executeFilter (fs : FileSystemTools) (env : ActionEnv)
    (csvPath : String) : Dict :=
  match env.filterRows with
  | Except.error e =>
    [("status", .str "error"),
     ("message", .str ("Error filtering data: " ++ e))]
  | Except.ok n =>
    let sampleName := pyPathStem csvPath ++ "_sample_10.csv"
    let filteredPath := fs.baseDir ++ "/reports/" ++ sampleName
    match env.filterWrite with
    | Except.error e =>
      [("status", .str "error"),
       ("message", .str ("Error filtering data: " ++ e))]
    | Except.ok _ =>
      let summary := "Data filtering prepared. \n            \n"
        ++ "**Sample Export:**\n"
        ++ "- Exported first 10 rows to demonstrate filtering\n"
        ++ "- File: `" ++ sampleName ++ "`\n"
        ++ "- Total rows in original: " ++ toString n ++ "\n\n"
        ++ "**Note:** Full filtering with custom criteria can be"
        ++ " implemented based on your requirements."
      [("status", .str "success"), ("action", .str "Data Filtering"),
       ("summary", .str summary), ("output", .str summary),
       ("files_created", .list [.str filteredPath]),
       ("message", .str "Data filtering completed")]

/-- `CSVAnalysisAgent._execute_report`: compute statistics and quality
(passing either error envelope through), render the HTML report, and wrap
the report path in a success envelope. -/
def executeReport (fs : FileSystemTools) (env : ActionEnv)
    (csvPath : String) : Dict :=
  match env.stats with
  | Except.error e =>
    [("status", .str "error"),
     ("message", .str ("Error calculating statistics: " ++ e))]
  | Except.ok _ =>
    match env.quality with
    | Except.error e =>
      [("status", .str "error"),
       ("message", .str ("Error checking data quality: " ++ e))]
    | Except.ok _ =>
      let reportResult :=
        fs.generateCsvReport env.reportTs env.reportWrite csvPath
      match env.reportWrite with
      | Except.error e =>
        [("status", .str "error"),
         ("message", .str ("Error generating report: " ++ e))]
      | Except.ok _ =>
        let reportFilename :=
          (dictGetD reportResult "report_filename" Val.none).pyShow
        let reportPath :=
          (dictGetD reportResult "report_path" Val.none).pyShow
        let summary := "Comprehensive report generated successfully!\n\n"
          ++ "**Report Details:**\n"
          ++ "- File: `" ++ reportFilename ++ "`\n"
          ++ "- Location: `" ++ reportPath ++ "`\n"
          ++ "- Includes: Statistics, data quality analysis, and"
          ++ " visualizations\n\n"
          ++ "You can open the HTML report in your web browser to view"
          ++ " the full analysis."
        [("status", .str "success"), ("action", .str "Report Generation"),
         ("summary", .str summary), ("output", .str summary),
         ("report_path", .str reportPath),
         ("files_created", .list [.str reportPath]),
         ("message", .str "Report generated successfully")]

/-- The suggestion-scanning loop of `execute_action` (lines 160–163):
first suggestion whose `id` equals `action_id` supplies the title; a
non-dict element reached before a match raises `AttributeError`. -/
def resolveActionNameLoop (actionId : Int) : List Val → Except String Val
  | [] => Except.ok (.str "Unknown Action")
  | v :: rest =>
    match v with
    | .dict s =>
      if (dictGetD s "id" Val.none).eqInt actionId then
        Except.ok (dictGetD s "title" (.str "Unknown Action"))
      else resolveActionNameLoop actionId rest
    | _ => Except.error "AttributeError"

/-- `for suggestion in suggestions` over the untyped `suggestions` value:
lists iterate their elements; an empty string or dict iterates nothing
(keeping the default name); any other iteration raises. -/
def resolveActionName (suggestions : Val) (actionId : Int) :
    Except String Val :=
  match suggestions with
  | .list vs => resolveActionNameLoop actionId vs
  | .str s =>
    if s = "" then Except.ok (.str "Unknown Action")
    else Except.error "AttributeError"
  | .dict d =>
    if d.isEmpty then Except.ok (.str "Unknown Action")
    else Except.error "AttributeError"
  | _ => Except.error "TypeError"

/-- The `try` body of `CSVAnalysisAgent.execute_action`: resolve the action
name from the prior analysis, route primarily on `action_id` (1/2 →
statistics, 3 → quality, 4 → filter, ≥5 → report), fall back to keyword
matching on the lower-cased title, default to statistics, and attach the
log file path to the result. -/
def executeActionBody (fs : FileSystemTools) (env : ActionEnv)
    (csvPath : String) (actionId : Int) (analysis : Dict) :
    Except String Dict :=
  let suggestions := dictGetD analysis "suggestions" (.list [])
  match resolveActionName suggestions actionId with
  | Except.error e => Except.error e
  | Except.ok actionNameV =>
    match actionNameV.asStr with
    | Except.error e => Except.error e
    | Except.ok actionName =>
      let actionLower := pyLower actionName
      let result :=
        if actionId = 1 ∨ actionId = 2 then executeStatistics env
        else if actionId = 3 then executeQualityCheck env
        else if actionId = 4 then executeFilter fs env csvPath
        else if actionId ≥ 5 then executeReport fs env csvPath
        else if pyContains actionLower "statistic"
            || pyContains actionLower "summary"
            || pyContains actionLower "view"
            || pyContains actionLower "calculate" then executeStatistics env
        else if pyContains actionLower "quality"
            || pyContains actionLower "check"
            || pyContains actionLower "validate"
            || pyContains actionLower "missing" then executeQualityCheck env
        else if pyContains actionLower "filter"
            || pyContains actionLower "export"
            || pyContains actionLower "extract" then
          executeFilter fs env csvPath
        else if pyContains actionLower "report"
            || pyContains actionLower "generate"
            || pyContains actionLower "create" then
          executeReport fs env csvPath
        else executeStatistics env
      Except.ok (dictSet result "log_file" (.str (logFilePath fs env)))

/-- `CSVAnalysisAgent.execute_action`, with its enclosing `try/except`
(the traceback text of the error envelope is abbreviated to the exception
message). -/
def executeAction (fs : FileSystemTools) (env : ActionEnv)
    (csvPath : String) (actionId : Int) (analysis : Dict) : Dict :=
  match executeActionBody fs env csvPath actionId analysis with
  | Except.ok d => d
  | Except.error e =>
    [("status", .str "error"),
     ("message", .str ("Error executing action: " ++ e)),
     ("traceback", .str e)]

/-- None of the fallback matcher's keywords occurs in the lower-cased
title: the condition under which the keyword routing takes its default
(Statistics) arm. -/
def noActionKeyword (al : String) : Prop :=
  pyContains al "statistic" = false ∧ pyContains al "summary" = false
  ∧ pyContains al "view" = false ∧ pyContains al "calculate" = false
  ∧ pyContains al "quality" = false ∧ pyContains al "check" = false
  ∧ pyContains al "validate" = false ∧ pyContains al "missing" = false
  ∧ pyContains al "filter" = false ∧ pyContains al "export" = false
  ∧ pyContains al "extract" = false ∧ pyContains al "report" = false
  ∧ pyContains al "generate" = false ∧ pyContains al "create" = false

end CSVAnalysisAgent

/-! ## RouterAgent (src/agents/router_agent.py) -/

namespace RouterAgent

/-- Environment of one `process_message` run: the intent-classification
completion call and its `json.loads`, the general-chat completion call,
and the environments of the three specialized agents. -/
structure RouterEnv where
  intentResp : Except String String
  intentJson : String → Except String Val
  chatResp : Except String String
  codeGen : CodeGenerationAgent.CodeGenEnv
  pdf : PDFExtractionAgent.PdfEnv
  csv : CSVAnalysisAgent.CsvEnv

/-- `RouterAgent._detect_intent`: classify via the completion client, strip
fences, parse JSON; any exception (call failure, parse failure, `.get` on
a non-dict, comparing a non-numeric confidence) falls back to
`general_chat`; a parsed confidence below 0.6 forces `general_chat`. -/
def detectIntent (resp : Except String String)
    (jsonLoads : String → Except String Val) : Dict :=
  match resp with
  | Except.error _ => [("type", .str "general_chat")]
  | Except.ok text =>
    match jsonLoads (CSVAnalysisAgent.extractJsonBlock (pyStrip text)) with
    | Except.error _ => [("type", .str "general_chat")]
    | Except.ok (.dict intent) =>
      match (dictGetD intent "confidence" (Val.int 0)).asNum? with
      | Option.none => [("type", .str "general_chat")]
      | some q =>
        if q.blt ⟨6, 10⟩ then dictSet intent "type" (.str "general_chat")
        else intent
    | Except.ok _ => [("type", .str "general_chat")]

/-- `RouterAgent._handle_general_chat`: a single completion call; failure
becomes an error envelope (which carries no `user_message` echo). -/
def handleGeneralChat (chatResp : Except String String)
    (message : String) : Dict :=
  match chatResp with
  | Except.ok s =>
    [("status", .str "success"), ("message", .str (pyStrip s)),
     ("user_message", .str message)]
  | Except.error e =>
    [("status", .str "error"),
     ("message", .str ("Error processing message: " ++ e))]

/-- `RouterAgent._handle_text_message`: detect intent, route
`code_generation` to the code pipeline, everything else (including the
explicit `general_chat` arm and the default arm, which coincide) to
general chat; reading `intent['type']` raises when the key is absent. -/
def handleTextMessage (fs : FileSystemTools) (env : RouterEnv)
    (message : String) : Except String Dict :=
  let intent := detectIntent env.intentResp env.intentJson
  match dictGetExn intent "type" with
  | Except.error e => Except.error e
  | Except.ok ty =>
    if ty.isStrEq "code_generation" then
      let language := dictGetD intent "language" (.str "python")
      let result := CodeGenerationAgent.generateCode fs env.codeGen
        message language
      Except.ok (dictSet (dictSet result "mode" (.str "code_generation"))
        "user_message" (.str message))
    else
      let result := handleGeneralChat env.chatResp message
      Except.ok (dictSet result "mode" (.str "general_chat"))

/-- `RouterAgent._handle_file_upload`: route by declared type or lowered
path suffix to the PDF or CSV pipeline (tagging mode and echoing the
message), else the unsupported-type error envelope; reading the `path` or
`type` keys, or calling `.lower()` on a non-string path, raises. -/
def handleFileUpload (fs : FileSystemTools) (env : RouterEnv)
    (message : String) (uploadedFile : Dict) : Except String Dict :=
  match dictGetExn uploadedFile "path" with
  | Except.error e => Except.error e
  | Except.ok filePath =>
    match dictGetExn uploadedFile "type" with
    | Except.error e => Except.error e
    | Except.ok fileType =>
      let pdfCheck : Except String Bool :=
        if fileType.isStrEq "pdf" then Except.ok true
        else
          match filePath.asStr with
          | Except.error e => Except.error e
          | Except.ok s => Except.ok (pyEndsWith (pyLower s) ".pdf")
      match pdfCheck with
      | Except.error e => Except.error e
      | Except.ok true =>
        Except.ok (dictSet (dictSet
          (PDFExtractionAgent.processPdf fs env.pdf filePath)
          "mode" (.str "pdf_extraction")) "user_message" (.str message))
      | Except.ok false =>
        let csvCheck : Except String Bool :=
          if fileType.isStrEq "csv" then Except.ok true
          else
            match filePath.asStr with
            | Except.error e => Except.error e
            | Except.ok s => Except.ok (pyEndsWith (pyLower s) ".csv")
        match csvCheck with
        | Except.error e => Except.error e
        | Except.ok true =>
          Except.ok (dictSet (dictSet (dictSet
            (CSVAnalysisAgent.analyzeCsv env.csv filePath)
            "mode" (.str "csv_analysis")) "user_message" (.str message))
            "file_path" filePath)
        | Except.ok false =>
          Except.ok [("status", .str "error"),
            ("message", .str ("Unsupported file type: " ++ fileType.pyShow
               ++ ". Please upload PDF or CSV files.")),
            ("mode", .str "error")]

/-- `RouterAgent.process_message`: dispatch on the presence (and Python
truthiness — an empty dict routes like no file) of `uploaded_file`; the
top-level catch-all converts any escaped exception into the generic error
envelope tagged `mode = error`. -/
def processMessage (fs : FileSystemTools) (env : RouterEnv)
    (message : String) (uploadedFile : Option Dict) : Dict :=
  let body : Except String Dict :=
    match uploadedFile with
    | some uf =>
      if uf.isEmpty then handleTextMessage fs env message
      else handleFileUpload fs env message uf
    | Option.none => handleTextMessage fs env message
  match body with
  | Except.ok d => d
  | Except.error e =>
    [("status", .str "error"),
     ("message", .str ("Error processing request: " ++ e)),
     ("mode", .str "error")]

/-- `RouterAgent.execute_csv_action`: delegate to the action dispatcher
(which is itself total, so the router's own `except` arm is unreachable)
and tag the result with `mode = csv_action`. -/
def executeCsvAction (fs : FileSystemTools)
    (env : CSVAnalysisAgent.ActionEnv) (csvPath : String) (actionId : Int)
    (analysis : Dict) : Dict :=
  dictSet (CSVAnalysisAgent.executeAction fs env csvPath actionId analysis)
    "mode" (.str "csv_action")

end RouterAgent

/-! ## Dictionary lemmas -/

theorem dictGet?_append (d₁ d₂ : Dict) (k : String) :
    dictGet? (d₁ ++ d₂) k
      = match dictGet? d₁ k with
        | some v => some v
        | Option.none => dictGet? d₂ k := by
  induction d₁ with
  | nil => simp [dictGet?]
  | cons p rest ih =>
    by_cases hp : p.1 = k
    · simp [dictGet?, hp]
    · simpa [dictGet?, hp] using ih

theorem dictGet?_map_set_self (d : Dict) (k : String) (v : Val)
    (h : (dictGet? d k).isSome) :
    dictGet? (d.map (fun p => if p.1 = k then (k, v) else p)) k = some v := by
  induction d with
  | nil => simp [dictGet?] at h
  | cons p rest ih =>
    obtain ⟨a, b⟩ := p
    simp only [List.map_cons]
    by_cases hp : a = k
    · rw [if_pos hp]
      simp [dictGet?]
    · rw [if_neg hp]
      simp only [dictGet?, hp, if_false] at h ⊢
      exact ih h

theorem dictGet?_map_set_ne (d : Dict) (k k' : String) (v : Val)
    (h : k' ≠ k) :
    dictGet? (d.map (fun p => if p.1 = k then (k, v) else p)) k'
      = dictGet? d k' := by
  induction d with
  | nil => simp [dictGet?]
  | cons p rest ih =>
    obtain ⟨a, b⟩ := p
    simp only [List.map_cons]
    by_cases hp : a = k
    · rw [if_pos hp]
      have hk : ¬k = k' := fun hk => h hk.symm
      have ha : ¬a = k' := hp ▸ hk
      simp [dictGet?, hk, ha, ih]
    · rw [if_neg hp]
      simp [dictGet?, ih]

/-- `d[k] = v` makes `d[k]` read back `v`. -/
theorem dictGet?_dictSet_self (d : Dict) (k : String) (v : Val) :
    dictGet? (dictSet d k v) k = some v := by
  unfold dictSet
  by_cases h : (dictGet? d k).isSome
  · simpa [h] using dictGet?_map_set_self d k v h
  · rw [if_neg h, dictGet?_append]
    rcases hd : dictGet? d k with _ | w
    · simp [dictGet?]
    · simp [hd] at h

/-- `d[k] = v` leaves every other key unchanged. -/
theorem dictGet?_dictSet_ne (d : Dict) (k k' : String) (v : Val)
    (h : k' ≠ k) :
    dictGet? (dictSet d k v) k' = dictGet? d k' := by
  unfold dictSet
  by_cases hs : (dictGet? d k).isSome
  · simpa [hs] using dictGet?_map_set_ne d k k' v h
  · rw [if_neg hs, dictGet?_append]
    rcases hd : dictGet? d k' with _ | w
    · simp [dictGet?, Ne.symm h]
    · simp

/-- Setting a non-`status` key preserves the envelope invariant. -/
theorem okStatus_dictSet (d : Dict) (k : String) (v : Val)
    (hk : k ≠ "status") (h : okStatus d) : okStatus (dictSet d k v) := by
  have hne : "status" ≠ k := fun hs => hk hs.symm
  rcases h with h | h
  · exact Or.inl (by rw [isStatus, dictGet?_dictSet_ne d k _ v hne]; exact h)
  · exact Or.inr (by rw [isStatus, dictGet?_dictSet_ne d k _ v hne]; exact h)

/-! ## Fence-scanner lemmas (for claim C7) -/

/-- Lines outside a fence are skipped. -/
theorem fenceScan_skip_outside (p rest : List String)
    (h : ∀ l ∈ p, pyStartsWith l "```" = false) :
    CodeGenerationAgent.fenceScan false (p ++ rest)
      = CodeGenerationAgent.fenceScan false rest := by
  induction p with
  | nil => rfl
  | cons x xs ih =>
    have hx := h x (List.mem_cons_self x xs)
    have hxs : ∀ l ∈ xs, pyStartsWith l "```" = false :=
      fun l hl => h l (List.mem_cons_of_mem x hl)
    simp [CodeGenerationAgent.fenceScan, hx, ih hxs]

/-- Lines inside a fence are emitted. -/
theorem fenceScan_emit_inside (c rest : List String)
    (h : ∀ l ∈ c, pyStartsWith l "```" = false) :
    CodeGenerationAgent.fenceScan true (c ++ rest)
      = c ++ CodeGenerationAgent.fenceScan true rest := by
  induction c with
  | nil => rfl
  | cons x xs ih =>
    have hx := h x (List.mem_cons_self x xs)
    have hxs : ∀ l ∈ xs, pyStartsWith l "```" = false :=
      fun l hl => h l (List.mem_cons_of_mem x hl)
    simp [CodeGenerationAgent.fenceScan, hx, ih hxs]

/-- A fence line toggles the state without being emitted. -/
theorem fenceScan_toggle (inside : Bool) (f : String) (rest : List String)
    (hf : pyStartsWith f "```" = true) :
    CodeGenerationAgent.fenceScan inside (f :: rest)
      = CodeGenerationAgent.fenceScan (!inside) rest := by
  simp [CodeGenerationAgent.fenceScan, hf]

/-- C7: for a model response whose lines are prose, an opening fence,
code lines, a closing fence and trailing prose, the line scanner keeps
exactly the code lines; a response with no fence marker is used verbatim
by the extraction step; and on the concrete two-fence response with three
code lines and surrounding prose, extraction returns exactly those three
lines. -/
theorem claim_C7_fence_extraction
    (p₁ c p₂ : List String) (f₁ f₂ : String) (t : String)
    (hp₁ : ∀ l ∈ p₁, pyStartsWith l "```" = false)
    (hc : ∀ l ∈ c, pyStartsWith l "```" = false)
    (hp₂ : ∀ l ∈ p₂, pyStartsWith l "```" = false)
    (hf₁ : pyStartsWith f₁ "```" = true)
    (hf₂ : pyStartsWith f₂ "```" = true)
    (ht : pyContains t "```" = false) :
    CodeGenerationAgent.fenceScan false (p₁ ++ f₁ :: (c ++ f₂ :: p₂)) = c
    ∧ CodeGenerationAgent.extractFencedCode t = t
    ∧ CodeGenerationAgent.extractFencedCode
        "Here is the code:\n```python\na = 1\nb = 2\nc = a + b\n```\nHope this helps!"
      = "a = 1\nb = 2\nc = a + b" := by
  refine ⟨?_, ?_, by decide⟩
  · rw [fenceScan_skip_outside p₁ _ hp₁, fenceScan_toggle false f₁ _ hf₁]
    simp only [Bool.not_false]
    rw [fenceScan_emit_inside c _ hc, fenceScan_toggle true f₂ _ hf₂]
    simp only [Bool.not_true]
    rw [show (p₂ : List String) = p₂ ++ [] by simp,
      fenceScan_skip_outside p₂ [] hp₂]
    simp [CodeGenerationAgent.fenceScan]
  · unfold CodeGenerationAgent.extractFencedCode
    rw [ht]
    simp

/-- Witness for C7 at a concrete response. -/
theorem claim_C7_fence_extraction_witness :
    CodeGenerationAgent.fenceScan false
        (["Here is the code:"] ++ "```python" ::
          (["a = 1", "b = 2", "c = a + b"] ++ "```" :: ["Hope this helps!"]))
      = ["a = 1", "b = 2", "c = a + b"]
    ∧ CodeGenerationAgent.extractFencedCode "plain text" = "plain text"
    ∧ CodeGenerationAgent.extractFencedCode
        "Here is the code:\n```python\na = 1\nb = 2\nc = a + b\n```\nHope this helps!"
      = "a = 1\nb = 2\nc = a + b" :=
  claim_C7_fence_extraction
    ["Here is the code:"] ["a = 1", "b = 2", "c = a + b"]
    ["Hope this helps!"] "```python" "```" "plain text"
    (by decide) (by decide) (by decide) (by decide) (by decide) (by decide)

/-- The 50-character truncation step bounds the name length. -/
theorem pyLen_truncate_le (f : String) :
    pyLen (if pyLen f > 50 then pyTake f 50 else f) ≤ 50 := by
  by_cases h : pyLen f > 50
  · rw [if_pos h]
    simp [pyLen, pyTake]
  · rw [if_neg h]
    omega

/-- C8: filename derivation — the normative prompt
"Write a function to calculate factorial" yields
`function_calculate_factorial`, and saving it with language `python`
appends `.py`; derived names never exceed 50 characters; a language
outside the fixed extension table maps to `.txt`. -/
theorem claim_C8_filename_derivation
    (fs : FileSystemTools) (ts code prompt lang : String)
    (hlang : List.lookup (pyLower lang) FileSystemTools.extensionsTable
      = Option.none) :
    CodeGenerationAgent.generateFilename
        "Write a function to calculate factorial"
      = "function_calculate_factorial"
    ∧ dictGet? (fs.saveCodeToFile ts (Except.ok ()) code
        (CodeGenerationAgent.generateFilename
          "Write a function to calculate factorial")
        (.str "python")) "filepath"
      = some (.str (fs.generatedCodeDir ++ "/"
          ++ "function_calculate_factorial.py"))
    ∧ pyLen (CodeGenerationAgent.generateFilename prompt) ≤ 50
    ∧ FileSystemTools.extFor lang = ".txt" := by
  refine ⟨by decide, rfl, ?_, ?_⟩
  · simp only [CodeGenerationAgent.generateFilename]
    exact pyLen_truncate_le _
  · unfold FileSystemTools.extFor
    rw [hlang]
    rfl

/-- Witness for C8 at a concrete unknown language. -/
theorem claim_C8_filename_derivation_witness :
    CodeGenerationAgent.generateFilename
        "Write a function to calculate factorial"
      = "function_calculate_factorial"
    ∧ dictGet? ((FileSystemTools.mk "/base").saveCodeToFile "T"
        (Except.ok ()) "x = 1"
        (CodeGenerationAgent.generateFilename
          "Write a function to calculate factorial")
        (.str "python")) "filepath"
      = some (.str ((FileSystemTools.mk "/base").generatedCodeDir ++ "/"
          ++ "function_calculate_factorial.py"))
    ∧ pyLen (CodeGenerationAgent.generateFilename "some prompt") ≤ 50
    ∧ FileSystemTools.extFor "ruby" = ".txt" :=
  claim_C8_filename_derivation (FileSystemTools.mk "/base") "T" "x = 1"
    "some prompt" "ruby" (by decide)

/-- Rendering an integer value. -/
theorem pyShow_int (k : Int) : (Val.int k).pyShow = toString k := rfl

/-- C3: whenever the Stage A summary/suggestion completion call fails, or
its response fails to parse as JSON, `_generate_summary_and_suggestions`
returns exactly the deterministic fallback: the templated count summary
and the fixed 4-suggestion list with ids 1–4 in order. -/
theorem claim_C3_deterministic_fallback
    (env : CSVAnalysisAgent.CsvEnv) (analysis : Dict) (nc nr : Int)
    (hnc : dictGet? analysis "num_cols" = some (Val.int nc))
    (hnr : dictGet? analysis "num_rows" = some (Val.int nr))
    (hfail : (∃ e, env.summaryResp = Except.error e)
      ∨ (∃ s e, env.summaryResp = Except.ok s
          ∧ env.jsonLoads (CSVAnalysisAgent.extractJsonBlock (pyStrip s))
            = Except.error e)) :
    CSVAnalysisAgent.generateSummaryAndSuggestions env analysis
      = Except.ok (Val.dict
        [("content_summary", .str ("A CSV file with " ++ toString nc
            ++ " columns and " ++ toString nr ++ " rows")),
         ("suggestions", .list
           [.dict [("id", Val.int 1), ("title", .str "View Statistics"),
              ("description",
                .str "Get statistical summary of numeric columns")],
            .dict [("id", Val.int 2), ("title", .str "Check Data Quality"),
              ("description",
                .str "Identify missing values and data issues")],
            .dict [("id", Val.int 3),
              ("title", .str "Export Filtered Data"),
              ("description",
                .str "Filter and export specific rows/columns")],
            .dict [("id", Val.int 4), ("title", .str "Generate Report"),
              ("description",
                .str "Create a summary report of the data")]])]) := by
  have htry : ∃ e, CSVAnalysisAgent.generateSummaryAndSuggestionsTry env
      analysis = Except.error e := by
    unfold CSVAnalysisAgent.generateSummaryAndSuggestionsTry
    rcases hcol : dictGetExn analysis "columns" with ec | vc
    · exact ⟨ec, rfl⟩
    · rcases hsd : dictGetExn analysis "sample_data" with es | vs
      · exact ⟨es, rfl⟩
      · rcases hfail with ⟨e, he⟩ | ⟨s, e, hs, he⟩
        · exact ⟨e, by rw [he]⟩
        · exact ⟨e, by rw [hs]; exact he⟩
  obtain ⟨e, he⟩ := htry
  unfold CSVAnalysisAgent.generateSummaryAndSuggestions
  rw [he]
  have hnc' : dictGetExn analysis "num_cols" = Except.ok (Val.int nc) := by
    unfold dictGetExn
    rw [hnc]
  have hnr' : dictGetExn analysis "num_rows" = Except.ok (Val.int nr) := by
    unfold dictGetExn
    rw [hnr]
  unfold CSVAnalysisAgent.fallbackSummaryAndSuggestions
  rw [hnc', hnr']
  rfl

/-- Witness for C3 at a concrete failing environment. -/
theorem claim_C3_deterministic_fallback_witness :
    CSVAnalysisAgent.generateSummaryAndSuggestions
        ⟨Except.error "unread", Except.error "timeout",
          fun _ => Except.error "parse"⟩
        [("num_cols", Val.int 3), ("num_rows", Val.int 7)]
      = Except.ok (Val.dict
        [("content_summary",
            .str "A CSV file with 3 columns and 7 rows"),
         ("suggestions", .list
           [.dict [("id", Val.int 1), ("title", .str "View Statistics"),
              ("description",
                .str "Get statistical summary of numeric columns")],
            .dict [("id", Val.int 2), ("title", .str "Check Data Quality"),
              ("description",
                .str "Identify missing values and data issues")],
            .dict [("id", Val.int 3),
              ("title", .str "Export Filtered Data"),
              ("description",
                .str "Filter and export specific rows/columns")],
            .dict [("id", Val.int 4), ("title", .str "Generate Report"),
              ("description",
                .str "Create a summary report of the data")]])]) :=
  claim_C3_deterministic_fallback
    ⟨Except.error "unread", Except.error "timeout",
      fun _ => Except.error "parse"⟩
    [("num_cols", Val.int 3), ("num_rows", Val.int 7)] 3 7
    rfl rfl (Or.inl ⟨"timeout", rfl⟩)

/-- C9: when the secondary completion call fails — the review call of the
code-generation pipeline, or the summary call of the document-extraction
pipeline — the pipeline substitutes its deterministic fallback (the
review-unavailable string with the failure reason; the sentence stating
only word and page counts) and still returns a success envelope. -/
theorem claim_C9_secondary_call_fallback
    (fs : FileSystemTools) (envC : CodeGenerationAgent.CodeGenEnv)
    (envP : PDFExtractionAgent.PdfEnv) (prompt : String) (language : Val)
    (raw e : String) (d : FileSystemTools.PdfData) (p e' : String)
    (hgen : envC.genResp = Except.ok raw)
    (hrev : envC.reviewResp = Except.error e)
    (hplumb : envP.plumber = Except.ok d)
    (hsum : envP.summaryResp = Except.error e') :
    dictGet? (CodeGenerationAgent.generateCode fs envC prompt language)
        "status" = some (.str "success")
    ∧ dictGet? (CodeGenerationAgent.generateCode fs envC prompt language)
        "review" = some (.str ("Review unavailable: " ++ e))
    ∧ dictGet? (PDFExtractionAgent.processPdf fs envP (.str p)) "status"
        = some (.str "success")
    ∧ dictGet? (PDFExtractionAgent.processPdf fs envP (.str p)) "summary"
        = some (.str ("Extracted "
            ++ toString ((pySplitWs (pyJoin "\n\n"
                (d.pageTexts.filter (· ≠ "")))).length : Int)
            ++ " words from " ++ toString (d.pageCount : Int)
            ++ " pages.")) := by
  refine ⟨?_, ?_, ?_, ?_⟩
  · simp [CodeGenerationAgent.generateCode, hgen, dictGet?]
  · simp [CodeGenerationAgent.generateCode, hgen, hrev,
      CodeGenerationAgent.reviewCode, dictGet?]
  · cases hw : envP.writeText <;>
      simp [PDFExtractionAgent.processPdf, PDFExtractionAgent.processPdfBody,
        FileSystemTools.extractPdfText, hplumb, hsum, hw, dictGetExn,
        dictGet?, dictGetD, Val.isStrEq, Val.asStr, Val.pyShow,
        PDFExtractionAgent.generateSummary, FileSystemTools.saveTextToFile]
  · cases hw : envP.writeText <;>
      simp [PDFExtractionAgent.processPdf, PDFExtractionAgent.processPdfBody,
        FileSystemTools.extractPdfText, hplumb, hsum, hw, dictGetExn,
        dictGet?, dictGetD, Val.isStrEq, Val.asStr, Val.pyShow, Val.int,
        PyNum.int, PDFExtractionAgent.generateSummary,
        FileSystemTools.saveTextToFile]

/-- Witness for C9 at a concrete environment. -/
theorem claim_C9_secondary_call_fallback_witness :
    dictGet? (CodeGenerationAgent.generateCode (FileSystemTools.mk "/base")
        ⟨Except.ok "x = 1", Except.error "review down",
          Except.ok (), "T"⟩ "Write sort" (.str "python"))
        "status" = some (.str "success")
    ∧ dictGet? (CodeGenerationAgent.generateCode (FileSystemTools.mk "/base")
        ⟨Except.ok "x = 1", Except.error "review down",
          Except.ok (), "T"⟩ "Write sort" (.str "python"))
        "review" = some (.str ("Review unavailable: " ++ "review down"))
    ∧ dictGet? (PDFExtractionAgent.processPdf (FileSystemTools.mk "/base")
        ⟨Except.ok ⟨2, ["one two", "three"]⟩, Except.error "na",
          Except.ok (), Except.error "summary down"⟩ (.str "doc.pdf"))
        "status" = some (.str "success")
    ∧ dictGet? (PDFExtractionAgent.processPdf (FileSystemTools.mk "/base")
        ⟨Except.ok ⟨2, ["one two", "three"]⟩, Except.error "na",
          Except.ok (), Except.error "summary down"⟩ (.str "doc.pdf"))
        "summary" = some (.str ("Extracted "
          ++ toString ((pySplitWs (pyJoin "\n\n"
              ((["one two", "three"] : List String).filter
                (· ≠ "")))).length : Int)
          ++ " words from " ++ toString (2 : Int) ++ " pages.")) :=
  claim_C9_secondary_call_fallback (FileSystemTools.mk "/base")
    ⟨Except.ok "x = 1", Except.error "review down", Except.ok (), "T"⟩
    ⟨Except.ok ⟨2, ["one two", "three"]⟩, Except.error "na",
      Except.ok (), Except.error "summary down"⟩
    "Write sort" (.str "python") "x = 1" "review down"
    ⟨2, ["one two", "three"]⟩ "doc.pdf" "summary down"
    rfl rfl rfl rfl

/-- C5 counterexample: with generation succeeding and the code-file write
failing (`disk full`), `generate_code` returns a *success* envelope whose
`filepath` is `None` — not the error envelope with an empty code field
that the claim asserts for saving failures. -/
theorem claim_C5_counterexample :
    dictGet? (CodeGenerationAgent.generateCode (FileSystemTools.mk "/base")
        ⟨Except.ok "print(1)", Except.ok "fine", Except.error "disk full",
          "T"⟩ "Write a script" (.str "python")) "status"
      = some (.str "success")
    ∧ dictGet? (CodeGenerationAgent.generateCode (FileSystemTools.mk "/base")
        ⟨Except.ok "print(1)", Except.ok "fine", Except.error "disk full",
          "T"⟩ "Write a script" (.str "python")) "filepath"
      = some Val.none := by
  constructor <;> rfl

/-- C5 (amended): a failure of the generation call yields the error
envelope with an empty `code` field; an I/O failure while persisting the
code is absorbed by `save_code_to_file` into its own error envelope, and
`generate_code` still returns a success envelope whose `filepath` is
`None`. -/
theorem claim_C5_generation_error_envelope
    (fs : FileSystemTools) (env : CodeGenerationAgent.CodeGenEnv)
    (prompt : String) (language : Val) (raw e e' : String)
    (hgen : env.genResp = Except.error e)
    (env₂ : CodeGenerationAgent.CodeGenEnv)
    (hgen₂ : env₂.genResp = Except.ok raw)
    (hwrite₂ : env₂.writeCode = Except.error e') :
    CodeGenerationAgent.generateCode fs env prompt language
      = [("status", .str "error"), ("code", .str ""), ("review", .str ""),
         ("filepath", Val.none),
         ("message", .str ("Error generating code: " ++ e))]
    ∧ dictGet? (CodeGenerationAgent.generateCode fs env₂ prompt language)
        "status" = some (.str "success")
    ∧ (∀ l : String, language = .str l →
        dictGet? (CodeGenerationAgent.generateCode fs env₂ prompt language)
          "filepath" = some Val.none) := by
  refine ⟨?_, ?_, ?_⟩
  · simp [CodeGenerationAgent.generateCode, hgen]
  · simp [CodeGenerationAgent.generateCode, hgen₂, dictGet?]
  · intro l hl
    simp [CodeGenerationAgent.generateCode, hgen₂, hl, hwrite₂,
      FileSystemTools.saveCodeToFile, Val.asStr, dictGetD, dictGet?]

/-- Witness for the amended C5 at concrete environments. -/
theorem claim_C5_generation_error_envelope_witness :
    CodeGenerationAgent.generateCode (FileSystemTools.mk "/base")
        ⟨Except.error "timeout", Except.ok "fine", Except.ok (), "T"⟩
        "Write a script" (.str "python")
      = [("status", .str "error"), ("code", .str ""), ("review", .str ""),
         ("filepath", Val.none),
         ("message", .str ("Error generating code: " ++ "timeout"))]
    ∧ dictGet? (CodeGenerationAgent.generateCode (FileSystemTools.mk "/base")
        ⟨Except.ok "print(1)", Except.ok "fine", Except.error "disk full",
          "T"⟩ "Write a script" (.str "python"))
        "status" = some (.str "success")
    ∧ (∀ l : String, (Val.str "python") = .str l →
        dictGet? (CodeGenerationAgent.generateCode
          (FileSystemTools.mk "/base")
          ⟨Except.ok "print(1)", Except.ok "fine", Except.error "disk full",
            "T"⟩ "Write a script" (.str "python"))
          "filepath" = some Val.none) :=
  claim_C5_generation_error_envelope (FileSystemTools.mk "/base")
    ⟨Except.error "timeout", Except.ok "fine", Except.ok (), "T"⟩
    "Write a script" (.str "python") "print(1)" "timeout" "disk full"
    rfl
    ⟨Except.ok "print(1)", Except.ok "fine", Except.error "disk full", "T"⟩
    rfl rfl

/-- C4: when intent classification succeeds but the parsed confidence is
below 0.6 (a missing confidence field defaults to 0), the classified type
is forced to `general_chat` whatever the classifier returned, and the
text-message handler takes the general-chat path — the code-generation
pipeline is not invoked. -/
theorem claim_C4_low_confidence_override
    (fs : FileSystemTools) (env : RouterAgent.RouterEnv) (message : String)
    (text : String) (intent : Dict) (q : PyNum)
    (hresp : env.intentResp = Except.ok text)
    (hjson : env.intentJson
        (CSVAnalysisAgent.extractJsonBlock (pyStrip text))
      = Except.ok (.dict intent))
    (hconf : (dictGetD intent "confidence" (Val.int 0)).asNum? = some q)
    (hlow : q.blt ⟨6, 10⟩ = true) :
    dictGet? (RouterAgent.detectIntent env.intentResp env.intentJson)
        "type" = some (.str "general_chat")
    ∧ RouterAgent.handleTextMessage fs env message
      = Except.ok (dictSet (RouterAgent.handleGeneralChat env.chatResp
          message) "mode" (.str "general_chat"))
    ∧ RouterAgent.processMessage fs env message Option.none
      = dictSet (RouterAgent.handleGeneralChat env.chatResp message)
          "mode" (.str "general_chat") := by
  have hdet : RouterAgent.detectIntent env.intentResp env.intentJson
      = dictSet intent "type" (.str "general_chat") := by
    simp [RouterAgent.detectIntent, hresp, hjson, hconf, hlow]
  have hty : dictGetExn (dictSet intent "type" (.str "general_chat")) "type"
      = Except.ok (.str "general_chat") := by
    unfold dictGetExn
    rw [dictGet?_dictSet_self]
  have hmsg : RouterAgent.handleTextMessage fs env message
      = Except.ok (dictSet (RouterAgent.handleGeneralChat env.chatResp
          message) "mode" (.str "general_chat")) := by
    unfold RouterAgent.handleTextMessage
    rw [hdet]
    simp only [hty]
    rfl
  refine ⟨?_, hmsg, ?_⟩
  · rw [hdet]
    exact dictGet?_dictSet_self intent "type" (.str "general_chat")
  · unfold RouterAgent.processMessage
    rw [hmsg]

/-- Witness for C4: confidence 0.4 with type `code_generation` routes to
general chat. -/
theorem claim_C4_low_confidence_override_witness :
    dictGet? (RouterAgent.detectIntent (Except.ok "resp")
        (fun _ => Except.ok (.dict [("type", .str "code_generation"),
          ("confidence", .num ⟨4, 10⟩)]))) "type"
      = some (.str "general_chat")
    ∧ RouterAgent.handleTextMessage (FileSystemTools.mk "/base")
        ⟨Except.ok "resp",
          fun _ => Except.ok (.dict [("type", .str "code_generation"),
            ("confidence", .num ⟨4, 10⟩)]),
          Except.ok "hello",
          ⟨Except.ok "", Except.ok "", Except.ok (), "T"⟩,
          ⟨Except.error "x", Except.error "x", Except.ok (),
            Except.error "x"⟩,
          ⟨Except.error "x", Except.error "x", fun _ => Except.error "x"⟩⟩
        "hi"
      = Except.ok (dictSet (RouterAgent.handleGeneralChat (Except.ok "hello")
          "hi") "mode" (.str "general_chat"))
    ∧ RouterAgent.processMessage (FileSystemTools.mk "/base")
        ⟨Except.ok "resp",
          fun _ => Except.ok (.dict [("type", .str "code_generation"),
            ("confidence", .num ⟨4, 10⟩)]),
          Except.ok "hello",
          ⟨Except.ok "", Except.ok "", Except.ok (), "T"⟩,
          ⟨Except.error "x", Except.error "x", Except.ok (),
            Except.error "x"⟩,
          ⟨Except.error "x", Except.error "x", fun _ => Except.error "x"⟩⟩
        "hi" Option.none
      = dictSet (RouterAgent.handleGeneralChat (Except.ok "hello") "hi")
          "mode" (.str "general_chat") :=
  claim_C4_low_confidence_override (FileSystemTools.mk "/base")
    ⟨Except.ok "resp",
      fun _ => Except.ok (.dict [("type", .str "code_generation"),
        ("confidence", .num ⟨4, 10⟩)]),
      Except.ok "hello",
      ⟨Except.ok "", Except.ok "", Except.ok (), "T"⟩,
      ⟨Except.error "x", Except.error "x", Except.ok (), Except.error "x"⟩,
      ⟨Except.error "x", Except.error "x", fun _ => Except.error "x"⟩⟩
    "hi" "resp"
    [("type", .str "code_generation"), ("confidence", .num ⟨4, 10⟩)]
    ⟨4, 10⟩ rfl rfl rfl (by decide)

/-- C10: when structural profiling fails, `analyze_csv` returns the
profiler's error envelope unchanged — with no content summary and no
suggestions, so the deterministic suggestion fallback applies only to
failures of the model summary step. -/
theorem claim_C10_profiling_error_passthrough
    (env : CSVAnalysisAgent.CsvEnv) (csvPath : Val) (e : String)
    (hread : env.readCsv = Except.error e) :
    CSVAnalysisAgent.analyzeCsv env csvPath
      = FileSystemTools.analyzeCsvStructure env.readCsv
    ∧ CSVAnalysisAgent.analyzeCsv env csvPath
      = [("status", .str "error"),
         ("message", .str ("Error analyzing CSV: " ++ e))]
    ∧ dictGet? (CSVAnalysisAgent.analyzeCsv env csvPath) "content_summary"
      = Option.none
    ∧ dictGet? (CSVAnalysisAgent.analyzeCsv env csvPath) "suggestions"
      = Option.none := by
  have h2 : CSVAnalysisAgent.analyzeCsv env csvPath
      = [("status", .str "error"),
         ("message", .str ("Error analyzing CSV: " ++ e))] := by
    simp only [CSVAnalysisAgent.analyzeCsv, CSVAnalysisAgent.analyzeCsvBody,
      hread, FileSystemTools.analyzeCsvStructure, dictGetExn, dictGet?,
      Val.isStrEq]
    rfl
  refine ⟨?_, h2, ?_, ?_⟩
  · rw [h2, hread]
    rfl
  · rw [h2]
    rfl
  · rw [h2]
    rfl

/-- Witness for C10 at a concrete unreadable file. -/
theorem claim_C10_profiling_error_passthrough_witness :
    CSVAnalysisAgent.analyzeCsv
        ⟨Except.error "no such file", Except.error "x",
          fun _ => Except.error "x"⟩ (.str "d.csv")
      = FileSystemTools.analyzeCsvStructure
          (CSVAnalysisAgent.CsvEnv.readCsv
            ⟨Except.error "no such file", Except.error "x",
              fun _ => Except.error "x"⟩)
    ∧ CSVAnalysisAgent.analyzeCsv
        ⟨Except.error "no such file", Except.error "x",
          fun _ => Except.error "x"⟩ (.str "d.csv")
      = [("status", .str "error"),
         ("message", .str ("Error analyzing CSV: " ++ "no such file"))]
    ∧ dictGet? (CSVAnalysisAgent.analyzeCsv
        ⟨Except.error "no such file", Except.error "x",
          fun _ => Except.error "x"⟩ (.str "d.csv")) "content_summary"
      = Option.none
    ∧ dictGet? (CSVAnalysisAgent.analyzeCsv
        ⟨Except.error "no such file", Except.error "x",
          fun _ => Except.error "x"⟩ (.str "d.csv")) "suggestions"
      = Option.none :=
  claim_C10_profiling_error_passthrough
    ⟨Except.error "no such file", Except.error "x",
      fun _ => Except.error "x"⟩ (.str "d.csv") "no such file" rfl

/-- C2: the action chosen by `execute_action` follows the routing policy
in priority order — ids 1/2 run Statistics, 3 runs Quality-check, 4 runs
Filter/export, ≥ 5 runs Report, independently of the suggestion titles in
the prior analysis; for ids ≤ 0 the resolved title is lower-cased and
keyword-matched, with the title "Check for Missing Data" routing to
Quality-check and Statistics as the default when no keyword matches. -/
theorem claim_C2_action_routing (fs : FileSystemTools)
    (env : CSVAnalysisAgent.ActionEnv) (csvPath : String) :
    (∀ (aid : Int) (analysis : Dict) (title : String),
      CSVAnalysisAgent.resolveActionName
          (dictGetD analysis "suggestions" (.list [])) aid
        = Except.ok (.str title) →
      aid = 1 ∨ aid = 2 →
      CSVAnalysisAgent.executeAction fs env csvPath aid analysis
        = dictSet (CSVAnalysisAgent.executeStatistics env) "log_file"
            (.str (CSVAnalysisAgent.logFilePath fs env)))
    ∧ (∀ (aid : Int) (analysis : Dict) (title : String),
      CSVAnalysisAgent.resolveActionName
          (dictGetD analysis "suggestions" (.list [])) aid
        = Except.ok (.str title) →
      aid = 3 →
      CSVAnalysisAgent.executeAction fs env csvPath aid analysis
        = dictSet (CSVAnalysisAgent.executeQualityCheck env) "log_file"
            (.str (CSVAnalysisAgent.logFilePath fs env)))
    ∧ (∀ (aid : Int) (analysis : Dict) (title : String),
      CSVAnalysisAgent.resolveActionName
          (dictGetD analysis "suggestions" (.list [])) aid
        = Except.ok (.str title) →
      aid = 4 →
      CSVAnalysisAgent.executeAction fs env csvPath aid analysis
        = dictSet (CSVAnalysisAgent.executeFilter fs env csvPath) "log_file"
            (.str (CSVAnalysisAgent.logFilePath fs env)))
    ∧ (∀ (aid : Int) (analysis : Dict) (title : String),
      CSVAnalysisAgent.resolveActionName
          (dictGetD analysis "suggestions" (.list [])) aid
        = Except.ok (.str title) →
      5 ≤ aid →
      CSVAnalysisAgent.executeAction fs env csvPath aid analysis
        = dictSet (CSVAnalysisAgent.executeReport fs env csvPath) "log_file"
            (.str (CSVAnalysisAgent.logFilePath fs env)))
    ∧ (∀ (aid : Int) (analysis : Dict),
      CSVAnalysisAgent.resolveActionName
          (dictGetD analysis "suggestions" (.list [])) aid
        = Except.ok (.str "Check for Missing Data") →
      aid ≤ 0 →
      CSVAnalysisAgent.executeAction fs env csvPath aid analysis
        = dictSet (CSVAnalysisAgent.executeQualityCheck env) "log_file"
            (.str (CSVAnalysisAgent.logFilePath fs env)))
    ∧ (∀ (aid : Int) (analysis : Dict) (title : String),
      CSVAnalysisAgent.resolveActionName
          (dictGetD analysis "suggestions" (.list [])) aid
        = Except.ok (.str title) →
      aid ≤ 0 →
      CSVAnalysisAgent.noActionKeyword (pyLower title) →
      CSVAnalysisAgent.executeAction fs env csvPath aid analysis
        = dictSet (CSVAnalysisAgent.executeStatistics env) "log_file"
            (.str (CSVAnalysisAgent.logFilePath fs env))) := by
  refine ⟨?_, ?_, ?_, ?_, ?_, ?_⟩
  · intro aid analysis title hres h
    rcases h with h | h <;> subst h <;>
      simp [CSVAnalysisAgent.executeAction,
        CSVAnalysisAgent.executeActionBody, hres, Val.asStr, Except.map]
  · intro aid analysis title hres h
    subst h
    simp [CSVAnalysisAgent.executeAction,
      CSVAnalysisAgent.executeActionBody, hres, Val.asStr, Except.map]
  · intro aid analysis title hres h
    subst h
    simp [CSVAnalysisAgent.executeAction,
      CSVAnalysisAgent.executeActionBody, hres, Val.asStr, Except.map]
  · intro aid analysis title hres h
    simp [CSVAnalysisAgent.executeAction,
      CSVAnalysisAgent.executeActionBody, hres, Val.asStr, Except.map,
      show ¬(aid = 1 ∨ aid = 2) by omega, show aid ≠ 3 by omega,
      show aid ≠ 4 by omega, h]
  · intro aid analysis hres h
    simp [CSVAnalysisAgent.executeAction,
      CSVAnalysisAgent.executeActionBody, hres, Val.asStr, Except.map,
      show ¬(aid = 1 ∨ aid = 2) by omega, show aid ≠ 3 by omega,
      show aid ≠ 4 by omega, show ¬(5 ≤ aid) by omega]
    rw [if_neg (by decide), if_pos (by decide)]
  · intro aid analysis title hres h hk
    obtain ⟨k₁, k₂, k₃, k₄, k₅, k₆, k₇, k₈, k₉, k₁₀, k₁₁, k₁₂, k₁₃, k₁₄⟩
      := hk
    simp [CSVAnalysisAgent.executeAction,
      CSVAnalysisAgent.executeActionBody, hres, Val.asStr, Except.map,
      show ¬(aid = 1 ∨ aid = 2) by omega, show aid ≠ 3 by omega,
      show aid ≠ 4 by omega, show ¬(5 ≤ aid) by omega,
      k₁, k₂, k₃, k₄, k₅, k₆, k₇, k₈, k₉, k₁₀, k₁₁, k₁₂, k₁₃, k₁₄]

/-- Witness for C2 at concrete dispatch calls: id 2 runs Statistics under
an unrelated title, ids 3/4/5 run Quality-check/Filter/Report, id 0 with
title "Check for Missing Data" runs Quality-check, and id 0 with a
keyword-free title defaults to Statistics. -/
theorem claim_C2_action_routing_witness :
    (CSVAnalysisAgent.executeAction (FileSystemTools.mk "/base")
        ⟨Except.ok (Val.dict []), "S", Except.ok (Val.dict []), "Q",
          Except.ok 10, Except.ok (), "TS", Except.ok (), "D"⟩
        "d.csv" 2
        [("suggestions", .list [.dict [("id", Val.int 2),
          ("title", .str "Totally Unrelated Title")]])]
      = dictSet (CSVAnalysisAgent.executeStatistics
          ⟨Except.ok (Val.dict []), "S", Except.ok (Val.dict []), "Q",
            Except.ok 10, Except.ok (), "TS", Except.ok (), "D"⟩)
          "log_file" (.str (CSVAnalysisAgent.logFilePath
            (FileSystemTools.mk "/base")
            ⟨Except.ok (Val.dict []), "S", Except.ok (Val.dict []), "Q",
              Except.ok 10, Except.ok (), "TS", Except.ok (), "D"⟩)))
    ∧ (CSVAnalysisAgent.executeAction (FileSystemTools.mk "/base")
        ⟨Except.ok (Val.dict []), "S", Except.ok (Val.dict []), "Q",
          Except.ok 10, Except.ok (), "TS", Except.ok (), "D"⟩
        "d.csv" 3
        [("suggestions", .list [.dict [("id", Val.int 2),
          ("title", .str "Totally Unrelated Title")]])]
      = dictSet (CSVAnalysisAgent.executeQualityCheck
          ⟨Except.ok (Val.dict []), "S", Except.ok (Val.dict []), "Q",
            Except.ok 10, Except.ok (), "TS", Except.ok (), "D"⟩)
          "log_file" (.str (CSVAnalysisAgent.logFilePath
            (FileSystemTools.mk "/base")
            ⟨Except.ok (Val.dict []), "S", Except.ok (Val.dict []), "Q",
              Except.ok 10, Except.ok (), "TS", Except.ok (), "D"⟩)))
    ∧ (CSVAnalysisAgent.executeAction (FileSystemTools.mk "/base")
        ⟨Except.ok (Val.dict []), "S", Except.ok (Val.dict []), "Q",
          Except.ok 10, Except.ok (), "TS", Except.ok (), "D"⟩
        "d.csv" 4
        [("suggestions", .list [.dict [("id", Val.int 2),
          ("title", .str "Totally Unrelated Title")]])]
      = dictSet (CSVAnalysisAgent.executeFilter (FileSystemTools.mk "/base")
          ⟨Except.ok (Val.dict []), "S", Except.ok (Val.dict []), "Q",
            Except.ok 10, Except.ok (), "TS", Except.ok (), "D"⟩ "d.csv")
          "log_file" (.str (CSVAnalysisAgent.logFilePath
            (FileSystemTools.mk "/base")
            ⟨Except.ok (Val.dict []), "S", Except.ok (Val.dict []), "Q",
              Except.ok 10, Except.ok (), "TS", Except.ok (), "D"⟩)))
    ∧ (CSVAnalysisAgent.executeAction (FileSystemTools.mk "/base")
        ⟨Except.ok (Val.dict []), "S", Except.ok (Val.dict []), "Q",
          Except.ok 10, Except.ok (), "TS", Except.ok (), "D"⟩
        "d.csv" 5
        [("suggestions", .list [.dict [("id", Val.int 2),
          ("title", .str "Totally Unrelated Title")]])]
      = dictSet (CSVAnalysisAgent.executeReport (FileSystemTools.mk "/base")
          ⟨Except.ok (Val.dict []), "S", Except.ok (Val.dict []), "Q",
            Except.ok 10, Except.ok (), "TS", Except.ok (), "D"⟩ "d.csv")
          "log_file" (.str (CSVAnalysisAgent.logFilePath
            (FileSystemTools.mk "/base")
            ⟨Except.ok (Val.dict []), "S", Except.ok (Val.dict []), "Q",
              Except.ok 10, Except.ok (), "TS", Except.ok (), "D"⟩)))
    ∧ (CSVAnalysisAgent.executeAction (FileSystemTools.mk "/base")
        ⟨Except.ok (Val.dict []), "S", Except.ok (Val.dict []), "Q",
          Except.ok 10, Except.ok (), "TS", Except.ok (), "D"⟩
        "d.csv" 0
        [("suggestions", .list [.dict [("id", Val.int 0),
          ("title", .str "Check for Missing Data")]])]
      = dictSet (CSVAnalysisAgent.executeQualityCheck
          ⟨Except.ok (Val.dict []), "S", Except.ok (Val.dict []), "Q",
            Except.ok 10, Except.ok (), "TS", Except.ok (), "D"⟩)
          "log_file" (.str (CSVAnalysisAgent.logFilePath
            (FileSystemTools.mk "/base")
            ⟨Except.ok (Val.dict []), "S", Except.ok (Val.dict []), "Q",
              Except.ok 10, Except.ok (), "TS", Except.ok (), "D"⟩)))
    ∧ (CSVAnalysisAgent.executeAction (FileSystemTools.mk "/base")
        ⟨Except.ok (Val.dict []), "S", Except.ok (Val.dict []), "Q",
          Except.ok 10, Except.ok (), "TS", Except.ok (), "D"⟩
        "d.csv" 0
        [("suggestions", .list [.dict [("id", Val.int 0),
          ("title", .str "Do Something Odd")]])]
      = dictSet (CSVAnalysisAgent.executeStatistics
          ⟨Except.ok (Val.dict []), "S", Except.ok (Val.dict []), "Q",
            Except.ok 10, Except.ok (), "TS", Except.ok (), "D"⟩)
          "log_file" (.str (CSVAnalysisAgent.logFilePath
            (FileSystemTools.mk "/base")
            ⟨Except.ok (Val.dict []), "S", Except.ok (Val.dict []), "Q",
              Except.ok 10, Except.ok (), "TS", Except.ok (), "D"⟩))) :=
  ⟨(claim_C2_action_routing (FileSystemTools.mk "/base")
      ⟨Except.ok (Val.dict []), "S", Except.ok (Val.dict []), "Q",
        Except.ok 10, Except.ok (), "TS", Except.ok (), "D"⟩ "d.csv").1
      2 _ "Totally Unrelated Title" rfl (Or.inr rfl),
   (claim_C2_action_routing (FileSystemTools.mk "/base")
      ⟨Except.ok (Val.dict []), "S", Except.ok (Val.dict []), "Q",
        Except.ok 10, Except.ok (), "TS", Except.ok (), "D"⟩ "d.csv").2.1
      3 _ "Unknown Action" rfl rfl,
   (claim_C2_action_routing (FileSystemTools.mk "/base")
      ⟨Except.ok (Val.dict []), "S", Except.ok (Val.dict []), "Q",
        Except.ok 10, Except.ok (), "TS", Except.ok (), "D"⟩ "d.csv").2.2.1
      4 _ "Unknown Action" rfl rfl,
   (claim_C2_action_routing (FileSystemTools.mk "/base")
      ⟨Except.ok (Val.dict []), "S", Except.ok (Val.dict []), "Q",
        Except.ok 10, Except.ok (), "TS", Except.ok (),
        "D"⟩ "d.csv").2.2.2.1
      5 _ "Unknown Action" rfl (by norm_num),
   (claim_C2_action_routing (FileSystemTools.mk "/base")
      ⟨Except.ok (Val.dict []), "S", Except.ok (Val.dict []), "Q",
        Except.ok 10, Except.ok (), "TS", Except.ok (),
        "D"⟩ "d.csv").2.2.2.2.1
      0 _ rfl (by norm_num),
   (claim_C2_action_routing (FileSystemTools.mk "/base")
      ⟨Except.ok (Val.dict []), "S", Except.ok (Val.dict []), "Q",
        Except.ok 10, Except.ok (), "TS", Except.ok (),
        "D"⟩ "d.csv").2.2.2.2.2
      0 _ "Do Something Odd" rfl (by norm_num)
      (by unfold CSVAnalysisAgent.noActionKeyword; decide)⟩

/-! ## Envelope-invariant lemmas for every pipeline (for claims C1, C6) -/

/-- A freshly set `mode` tag survives setting other keys. -/
theorem hasMode_dictSet_of_ne (d : Dict) (k : String) (v : Val)
    (hk : k ≠ "mode") (h : hasMode d) : hasMode (dictSet d k v) := by
  obtain ⟨m, hm⟩ := h
  refine ⟨m, ?_⟩
  rw [dictGet?_dictSet_ne d k _ v (fun hx => hk hx.symm)]
  exact hm

/-- Setting `mode` gives the tag. -/
theorem hasMode_dictSet_mode (d : Dict) (m : String) :
    hasMode (dictSet d "mode" (.str m)) :=
  ⟨m, dictGet?_dictSet_self d "mode" (.str m)⟩

theorem okStatus_extractPdfText (plumber pypdf :
    Except String FileSystemTools.PdfData) :
    okStatus (FileSystemTools.extractPdfText plumber pypdf) := by
  rcases hp : plumber with e | d
  · rcases hq : pypdf with e2 | d2 <;>
      simp [FileSystemTools.extractPdfText, okStatus, isStatus, dictGet?]
  · simp [FileSystemTools.extractPdfText, okStatus, isStatus, dictGet?]

theorem okStatus_processPdf (fs : FileSystemTools)
    (env : PDFExtractionAgent.PdfEnv) (pdfPath : Val) :
    okStatus (PDFExtractionAgent.processPdf fs env pdfPath) := by
  unfold PDFExtractionAgent.processPdf PDFExtractionAgent.processPdfBody
  rcases hp : env.plumber with e | d
  · rcases hq : env.pypdf with e2 | d2
    · simp [FileSystemTools.extractPdfText, dictGetExn, dictGet?,
        Val.isStrEq, okStatus, isStatus]
    · rcases hpa : pdfPath.asStr with e3 | p <;>
        cases hw : env.writeText <;>
        simp [FileSystemTools.extractPdfText, dictGetExn, dictGet?,
          Val.isStrEq, Val.asStr, okStatus, isStatus, hpa, hw]
  · rcases hpa : pdfPath.asStr with e3 | p <;>
      cases hw : env.writeText <;>
      simp [FileSystemTools.extractPdfText, dictGetExn, dictGet?,
        Val.isStrEq, Val.asStr, okStatus, isStatus, hpa, hw]

theorem okStatus_generateCode (fs : FileSystemTools)
    (env : CodeGenerationAgent.CodeGenEnv) (prompt : String)
    (language : Val) :
    okStatus (CodeGenerationAgent.generateCode fs env prompt language) := by
  rcases hg : env.genResp with e | raw <;>
    simp [CodeGenerationAgent.generateCode, hg, okStatus, isStatus, dictGet?]

theorem okStatus_handleGeneralChat (chatResp : Except String String)
    (message : String) :
    okStatus (RouterAgent.handleGeneralChat chatResp message) := by
  rcases hc : chatResp with e | s <;>
    simp [RouterAgent.handleGeneralChat, hc, okStatus, isStatus, dictGet?]

theorem okStatus_analyzeCsvStructure
    (read : Except String FileSystemTools.CsvProfile) :
    okStatus (FileSystemTools.analyzeCsvStructure read) := by
  rcases read with e | p <;>
    simp [FileSystemTools.analyzeCsvStructure, okStatus, isStatus, dictGet?]

theorem okStatus_analyzeCsv (env : CSVAnalysisAgent.CsvEnv)
    (csvPath : Val) :
    okStatus (CSVAnalysisAgent.analyzeCsv env csvPath) := by
  unfold CSVAnalysisAgent.analyzeCsv
  rcases hb : CSVAnalysisAgent.analyzeCsvBody env csvPath with e | d
  · simp [okStatus, isStatus, dictGet?]
  · unfold CSVAnalysisAgent.analyzeCsvBody at hb
    simp only [] at hb
    rcases hst : dictGetExn
        (FileSystemTools.analyzeCsvStructure env.readCsv) "status"
        with e1 | st
    · simp only [hst] at hb
      exact Except.noConfusion hb
    · simp only [hst] at hb
      by_cases hsucc : st.isStrEq "success" = true
      · simp only [hsucc, if_true] at hb
        rcases hss : CSVAnalysisAgent.generateSummaryAndSuggestions env
            (FileSystemTools.analyzeCsvStructure env.readCsv) with e2 | ss
        · simp only [hss] at hb
          exact Except.noConfusion hb
        · simp only [hss] at hb
          rcases hpa : csvPath.asStr with e3 | q
          · simp only [hpa] at hb
            exact Except.noConfusion hb
          · simp only [hpa] at hb
            rcases hcs : CSVAnalysisAgent.valGetExn ss "content_summary"
                with e4 | cs
            · simp only [hcs] at hb
              exact Except.noConfusion hb
            · simp only [hcs] at hb
              rcases hsg : CSVAnalysisAgent.valGetExn ss "suggestions"
                  with e5 | sg
              · simp only [hsg] at hb
                exact Except.noConfusion hb
              · simp only [hsg] at hb
                rcases hnr : dictGetExn
                    (FileSystemTools.analyzeCsvStructure env.readCsv)
                    "num_rows" with e6 | nr
                · simp only [hnr] at hb
                  exact Except.noConfusion hb
                · simp only [hnr] at hb
                  rcases hncl : dictGetExn
                      (FileSystemTools.analyzeCsvStructure env.readCsv)
                      "num_cols" with e7 | ncl
                  · simp only [hncl] at hb
                    exact Except.noConfusion hb
                  · simp only [hncl] at hb
                    rcases hcl : dictGetExn
                        (FileSystemTools.analyzeCsvStructure env.readCsv)
                        "columns" with e8 | cl
                    · simp only [hcl] at hb
                      exact Except.noConfusion hb
                    · simp only [hcl] at hb
                      rcases hsd : dictGetExn
                          (FileSystemTools.analyzeCsvStructure env.readCsv)
                          "sample_data" with e9 | sd
                      · simp only [hsd] at hb
                        exact Except.noConfusion hb
                      · simp only [hsd] at hb
                        rcases hs3 : CSVAnalysisAgent.pySliceThree sd
                            with e10 | s3
                        · simp only [hs3] at hb
                          exact Except.noConfusion hb
                        · simp only [hs3] at hb
                          cases hb
                          simp [okStatus, isStatus, dictGet?]
      · simp only [hsucc, if_false, Bool.false_eq_true] at hb
        cases hb
        exact okStatus_analyzeCsvStructure env.readCsv

theorem okStatus_executeStatistics (env : CSVAnalysisAgent.ActionEnv) :
    okStatus (CSVAnalysisAgent.executeStatistics env) := by
  rcases hs : env.stats with e | s <;>
    simp [CSVAnalysisAgent.executeStatistics, hs, okStatus, isStatus,
      dictGet?]

theorem okStatus_executeQualityCheck (env : CSVAnalysisAgent.ActionEnv) :
    okStatus (CSVAnalysisAgent.executeQualityCheck env) := by
  rcases hq : env.quality with e | q <;>
    simp [CSVAnalysisAgent.executeQualityCheck, hq, okStatus, isStatus,
      dictGet?]

theorem okStatus_executeFilter (fs : FileSystemTools)
    (env : CSVAnalysisAgent.ActionEnv) (csvPath : String) :
    okStatus (CSVAnalysisAgent.executeFilter fs env csvPath) := by
  rcases hr : env.filterRows with e | n <;>
    cases hw : env.filterWrite <;>
    simp [CSVAnalysisAgent.executeFilter, hr, hw, okStatus, isStatus,
      dictGet?]

theorem okStatus_executeReport (fs : FileSystemTools)
    (env : CSVAnalysisAgent.ActionEnv) (csvPath : String) :
    okStatus (CSVAnalysisAgent.executeReport fs env csvPath) := by
  rcases hs : env.stats with e | s
  · simp [CSVAnalysisAgent.executeReport, hs, okStatus, isStatus, dictGet?]
  · rcases hq : env.quality with e2 | q <;>
      cases hw : env.reportWrite <;>
      simp [CSVAnalysisAgent.executeReport, hs, hq, hw, okStatus, isStatus,
        dictGet?, FileSystemTools.generateCsvReport]

theorem okStatus_executeAction (fs : FileSystemTools)
    (env : CSVAnalysisAgent.ActionEnv) (csvPath : String) (actionId : Int)
    (analysis : Dict) :
    okStatus (CSVAnalysisAgent.executeAction fs env csvPath actionId
      analysis) := by
  unfold CSVAnalysisAgent.executeAction CSVAnalysisAgent.executeActionBody
  rcases hres : CSVAnalysisAgent.resolveActionName
      (dictGetD analysis "suggestions" (.list [])) actionId with e | v
  · simp [hres, okStatus, isStatus, dictGet?]
  · rcases hv : v.asStr with e2 | name
    · simp [hres, hv, okStatus, isStatus, dictGet?]
    · simp only [hres, hv]
      refine okStatus_dictSet _ _ _ (by decide) ?_
      split
      · exact okStatus_executeStatistics env
      · split
        · exact okStatus_executeQualityCheck env
        · split
          · exact okStatus_executeFilter fs env csvPath
          · split
            · exact okStatus_executeReport fs env csvPath
            · split
              · exact okStatus_executeStatistics env
              · split
                · exact okStatus_executeQualityCheck env
                · split
                  · exact okStatus_executeFilter fs env csvPath
                  · split
                    · exact okStatus_executeReport fs env csvPath
                    · exact okStatus_executeStatistics env

/-- Every successful result of the text-message handler is a well-formed,
mode-tagged envelope. -/
theorem routerTextMessage_ok (fs : FileSystemTools)
    (env : RouterAgent.RouterEnv) (message : String) (d : Dict)
    (h : RouterAgent.handleTextMessage fs env message = Except.ok d) :
    okStatus d ∧ hasMode d := by
  unfold RouterAgent.handleTextMessage at h
  rcases hty : dictGetExn
      (RouterAgent.detectIntent env.intentResp env.intentJson) "type"
      with e | ty
  · simp only [hty] at h
    exact Except.noConfusion h
  · simp only [hty] at h
    by_cases hcg : ty.isStrEq "code_generation" = true
    · rw [if_pos hcg] at h
      cases h
      refine ⟨?_, ?_⟩
      · refine okStatus_dictSet _ _ _ (by decide) ?_
        refine okStatus_dictSet _ _ _ (by decide) ?_
        exact okStatus_generateCode fs env.codeGen message _
      · exact hasMode_dictSet_of_ne _ _ _ (by decide)
          (hasMode_dictSet_mode _ _)
    · rw [if_neg hcg] at h
      cases h
      refine ⟨?_, ?_⟩
      · exact okStatus_dictSet _ _ _ (by decide)
          (okStatus_handleGeneralChat env.chatResp message)
      · exact hasMode_dictSet_mode _ _

/-- Every successful result of the file-upload handler is a well-formed,
mode-tagged envelope. -/
theorem routerFileUpload_ok (fs : FileSystemTools)
    (env : RouterAgent.RouterEnv) (message : String) (uf : Dict) (d : Dict)
    (h : RouterAgent.handleFileUpload fs env message uf = Except.ok d) :
    okStatus d ∧ hasMode d := by
  unfold RouterAgent.handleFileUpload at h
  rcases hp : dictGetExn uf "path" with e | fp
  · simp only [hp] at h
    exact Except.noConfusion h
  · simp only [hp] at h
    rcases ht : dictGetExn uf "type" with e | ftype
    · simp only [ht] at h
      exact Except.noConfusion h
    · simp only [ht] at h
      by_cases hpdf : ftype.isStrEq "pdf" = true
      · rw [if_pos hpdf] at h
        cases h
        refine ⟨?_, ?_⟩
        · refine okStatus_dictSet _ _ _ (by decide) ?_
          refine okStatus_dictSet _ _ _ (by decide) ?_
          exact okStatus_processPdf fs env.pdf fp
        · exact hasMode_dictSet_of_ne _ _ _ (by decide)
            (hasMode_dictSet_mode _ _)
      · rw [if_neg hpdf] at h
        rcases hfp : fp.asStr with e | s
        · simp only [hfp] at h
          exact Except.noConfusion h
        · simp only [hfp] at h
          by_cases hend : pyEndsWith (pyLower s) ".pdf" = true
          · simp only [hend] at h
            cases h
            refine ⟨?_, ?_⟩
            · refine okStatus_dictSet _ _ _ (by decide) ?_
              refine okStatus_dictSet _ _ _ (by decide) ?_
              exact okStatus_processPdf fs env.pdf fp
            · exact hasMode_dictSet_of_ne _ _ _ (by decide)
                (hasMode_dictSet_mode _ _)
          · simp only [Bool.not_eq_true] at hend
            simp only [hend] at h
            by_cases hcsv : ftype.isStrEq "csv" = true
            · rw [if_pos hcsv] at h
              cases h
              refine ⟨?_, ?_⟩
              · refine okStatus_dictSet _ _ _ (by decide) ?_
                refine okStatus_dictSet _ _ _ (by decide) ?_
                refine okStatus_dictSet _ _ _ (by decide) ?_
                exact okStatus_analyzeCsv env.csv fp
              · refine hasMode_dictSet_of_ne _ _ _ (by decide) ?_
                exact hasMode_dictSet_of_ne _ _ _ (by decide)
                  (hasMode_dictSet_mode _ _)
            · rw [if_neg hcsv] at h
              by_cases hendc : pyEndsWith (pyLower s) ".csv" = true
              · simp only [hendc] at h
                cases h
                refine ⟨?_, ?_⟩
                · refine okStatus_dictSet _ _ _ (by decide) ?_
                  refine okStatus_dictSet _ _ _ (by decide) ?_
                  refine okStatus_dictSet _ _ _ (by decide) ?_
                  exact okStatus_analyzeCsv env.csv fp
                · refine hasMode_dictSet_of_ne _ _ _ (by decide) ?_
                  exact hasMode_dictSet_of_ne _ _ _ (by decide)
                    (hasMode_dictSet_mode _ _)
              · simp only [Bool.not_eq_true] at hendc
                simp only [hendc] at h
                cases h
                refine ⟨?_, ?_⟩
                · exact Or.inr (by simp [isStatus, dictGet?])
                · exact ⟨"error", by simp [dictGet?]⟩

/-- `process_message` always returns a well-formed, mode-tagged envelope. -/
theorem processMessage_invariants (fs : FileSystemTools)
    (env : RouterAgent.RouterEnv) (message : String)
    (uploadedFile : Option Dict) :
    okStatus (RouterAgent.processMessage fs env message uploadedFile)
    ∧ hasMode (RouterAgent.processMessage fs env message uploadedFile) := by
  unfold RouterAgent.processMessage
  rcases uploadedFile with _ | u
  · rcases hm : RouterAgent.handleTextMessage fs env message with e | d
    · simp [okStatus, isStatus, hasMode, dictGet?]
    · simp only [hm]
      exact routerTextMessage_ok fs env message d hm
  · simp only []
    by_cases hu : u.isEmpty = true
    · rw [if_pos hu]
      rcases hm : RouterAgent.handleTextMessage fs env message with e | d
      · simp [okStatus, isStatus, hasMode, dictGet?]
      · simp only [hm]
        exact routerTextMessage_ok fs env message d hm
    · rw [if_neg hu]
      rcases hm : RouterAgent.handleFileUpload fs env message u with e | d
      · simp [okStatus, isStatus, hasMode, dictGet?]
      · simp only [hm]
        exact routerFileUpload_ok fs env message u d hm

/-- C1: for every input message and optional uploaded-file dictionary,
`process_message` returns an envelope whose `status` is `success` or
`error` (the top-level catch-all converts any escaped exception); the
same holds for `execute_csv_action` for every path, action id and prior
analysis. -/
theorem claim_C1_status_envelope :
    (∀ (fs : FileSystemTools) (env : RouterAgent.RouterEnv)
      (message : String) (uploadedFile : Option Dict),
      okStatus (RouterAgent.processMessage fs env message uploadedFile))
    ∧ (∀ (fs : FileSystemTools) (env : CSVAnalysisAgent.ActionEnv)
      (csvPath : String) (actionId : Int) (analysis : Dict),
      okStatus (RouterAgent.executeCsvAction fs env csvPath actionId
        analysis)) :=
  ⟨fun fs env message uploadedFile =>
    (processMessage_invariants fs env message uploadedFile).1,
   fun fs env csvPath actionId analysis =>
    okStatus_dictSet _ _ _ (by decide)
      (okStatus_executeAction fs env csvPath actionId analysis)⟩

/-- C6 counterexample: on the unsupported-file path the router's envelope
is tagged `mode = error` but does *not* echo the user message — the
`user_message` key is absent, contradicting the claim that every router
envelope echoes the original message. -/
theorem claim_C6_counterexample :
    dictGet? (RouterAgent.processMessage (FileSystemTools.mk "/base")
        ⟨Except.error "x", fun _ => Except.error "x", Except.error "x",
          ⟨Except.error "x", Except.error "x", Except.error "x", "T"⟩,
          ⟨Except.error "x", Except.error "x", Except.error "x",
            Except.error "x"⟩,
          ⟨Except.error "x", Except.error "x", fun _ => Except.error "x"⟩⟩
        "hello"
        (some [("path", .str "notes.docx"), ("type", .str "docx")]))
      "user_message" = Option.none
    ∧ dictGet? (RouterAgent.processMessage (FileSystemTools.mk "/base")
        ⟨Except.error "x", fun _ => Except.error "x", Except.error "x",
          ⟨Except.error "x", Except.error "x", Except.error "x", "T"⟩,
          ⟨Except.error "x", Except.error "x", Except.error "x",
            Except.error "x"⟩,
          ⟨Except.error "x", Except.error "x", fun _ => Except.error "x"⟩⟩
        "hello"
        (some [("path", .str "notes.docx"), ("type", .str "docx")]))
      "mode" = some (.str "error") := by
  exact ⟨rfl, rfl⟩

/-- C6 (amended): every envelope returned by `process_message` carries a
`mode` tag; the PDF, CSV and code-generation paths and the general-chat
success path echo the original user message (the unsupported-file path,
the general-chat failure path and the top-level catch-all omit the echo,
as the counterexample shows). -/
theorem claim_C6_mode_tag_and_echo :
    (∀ (fs : FileSystemTools) (env : RouterAgent.RouterEnv)
      (message : String) (uploadedFile : Option Dict),
      hasMode (RouterAgent.processMessage fs env message uploadedFile))
    ∧ (∀ (fs : FileSystemTools) (env : RouterAgent.RouterEnv)
      (message : String) (uf : Dict) (fp : Val),
      dictGet? uf "path" = some fp →
      dictGet? uf "type" = some (.str "pdf") →
      dictGet? (RouterAgent.processMessage fs env message (some uf))
        "user_message" = some (.str message))
    ∧ (∀ (fs : FileSystemTools) (env : RouterAgent.RouterEnv)
      (message : String) (uf : Dict) (p : String),
      dictGet? uf "path" = some (.str p) →
      dictGet? uf "type" = some (.str "csv") →
      pyEndsWith (pyLower p) ".pdf" = false →
      dictGet? (RouterAgent.processMessage fs env message (some uf))
        "user_message" = some (.str message))
    ∧ (∀ (fs : FileSystemTools) (env : RouterAgent.RouterEnv)
      (message : String) (ty : Val),
      dictGetExn (RouterAgent.detectIntent env.intentResp env.intentJson)
        "type" = Except.ok ty →
      ty.isStrEq "code_generation" = true →
      dictGet? (RouterAgent.processMessage fs env message Option.none)
        "user_message" = some (.str message))
    ∧ (∀ (fs : FileSystemTools) (env : RouterAgent.RouterEnv)
      (message : String) (ty : Val) (s : String),
      dictGetExn (RouterAgent.detectIntent env.intentResp env.intentJson)
        "type" = Except.ok ty →
      ty.isStrEq "code_generation" = false →
      env.chatResp = Except.ok s →
      dictGet? (RouterAgent.processMessage fs env message Option.none)
        "user_message" = some (.str message)) := by
  refine ⟨?_, ?_, ?_, ?_, ?_⟩
  · exact fun fs env message uploadedFile =>
      (processMessage_invariants fs env message uploadedFile).2
  · intro fs env message uf fp hpath htype
    have hu : uf.isEmpty = false := by
      cases uf with
      | nil => simp [dictGet?] at hpath
      | cons p rest => rfl
    have hp' : dictGetExn uf "path" = Except.ok fp := by
      unfold dictGetExn
      rw [hpath]
    have ht' : dictGetExn uf "type" = Except.ok (.str "pdf") := by
      unfold dictGetExn
      rw [htype]
    unfold RouterAgent.processMessage RouterAgent.handleFileUpload
    simp only [hu, Bool.false_eq_true, if_false, hp', ht']
    rw [if_pos (by decide)]
    rw [dictGet?_dictSet_self]
  · intro fs env message uf p hpath htype hend
    have hu : uf.isEmpty = false := by
      cases uf with
      | nil => simp [dictGet?] at hpath
      | cons q rest => rfl
    have hp' : dictGetExn uf "path" = Except.ok (.str p) := by
      unfold dictGetExn
      rw [hpath]
    have ht' : dictGetExn uf "type" = Except.ok (.str "csv") := by
      unfold dictGetExn
      rw [htype]
    unfold RouterAgent.processMessage RouterAgent.handleFileUpload
    simp only [hu, Bool.false_eq_true, if_false, hp', ht']
    rw [if_neg (by decide)]
    simp only [Val.asStr, hend]
    rw [if_pos (by decide)]
    rw [dictGet?_dictSet_ne _ _ _ _ (by decide), dictGet?_dictSet_self]
  · intro fs env message ty hty hcg
    unfold RouterAgent.processMessage RouterAgent.handleTextMessage
    simp only [hty]
    rw [if_pos hcg]
    rw [dictGet?_dictSet_self]
  · intro fs env message ty s hty hcg hchat
    unfold RouterAgent.processMessage RouterAgent.handleTextMessage
    simp only [hty]
    rw [if_neg (by simp [hcg])]
    rw [dictGet?_dictSet_ne _ _ _ _ (by decide)]
    simp [RouterAgent.handleGeneralChat, hchat, dictGet?]

/-- Witness for the amended C6 at concrete uploads and messages. -/
theorem claim_C6_mode_tag_and_echo_witness :
    hasMode (RouterAgent.processMessage (FileSystemTools.mk "/base")
      ⟨Except.error "x", fun _ => Except.error "x", Except.error "x",
        ⟨Except.error "x", Except.error "x", Except.error "x", "T"⟩,
        ⟨Except.error "x", Except.error "x", Except.error "x",
          Except.error "x"⟩,
        ⟨Except.error "x", Except.error "x", fun _ => Except.error "x"⟩⟩
      "hello" Option.none)
    ∧ dictGet? (RouterAgent.processMessage (FileSystemTools.mk "/base")
        ⟨Except.error "x", fun _ => Except.error "x", Except.error "x",
          ⟨Except.error "x", Except.error "x", Except.error "x", "T"⟩,
          ⟨Except.error "x", Except.error "x", Except.error "x",
            Except.error "x"⟩,
          ⟨Except.error "x", Except.error "x", fun _ => Except.error "x"⟩⟩
        "hi" (some [("path", .str "doc.pdf"), ("type", .str "pdf")]))
      "user_message" = some (.str "hi")
    ∧ dictGet? (RouterAgent.processMessage (FileSystemTools.mk "/base")
        ⟨Except.error "x", fun _ => Except.error "x", Except.error "x",
          ⟨Except.error "x", Except.error "x", Except.error "x", "T"⟩,
          ⟨Except.error "x", Except.error "x", Except.error "x",
            Except.error "x"⟩,
          ⟨Except.error "x", Except.error "x", fun _ => Except.error "x"⟩⟩
        "hi" (some [("path", .str "t.csv"), ("type", .str "csv")]))
      "user_message" = some (.str "hi")
    ∧ dictGet? (RouterAgent.processMessage (FileSystemTools.mk "/base")
        ⟨Except.ok "resp",
          fun _ => Except.ok (.dict [("type", .str "code_generation"),
            ("confidence", .num ⟨9, 10⟩)]),
          Except.error "x",
          ⟨Except.ok "print(1)", Except.ok "fine", Except.ok (), "T"⟩,
          ⟨Except.error "x", Except.error "x", Except.error "x",
            Except.error "x"⟩,
          ⟨Except.error "x", Except.error "x", fun _ => Except.error "x"⟩⟩
        "hi" Option.none)
      "user_message" = some (.str "hi")
    ∧ dictGet? (RouterAgent.processMessage (FileSystemTools.mk "/base")
        ⟨Except.error "x", fun _ => Except.error "x", Except.ok "yo",
          ⟨Except.error "x", Except.error "x", Except.error "x", "T"⟩,
          ⟨Except.error "x", Except.error "x", Except.error "x",
            Except.error "x"⟩,
          ⟨Except.error "x", Except.error "x", fun _ => Except.error "x"⟩⟩
        "hi" Option.none)
      "user_message" = some (.str "hi") :=
  ⟨claim_C6_mode_tag_and_echo.1 (FileSystemTools.mk "/base")
    ⟨Except.error "x", fun _ => Except.error "x", Except.error "x",
      ⟨Except.error "x", Except.error "x", Except.error "x", "T"⟩,
      ⟨Except.error "x", Except.error "x", Except.error "x",
        Except.error "x"⟩,
      ⟨Except.error "x", Except.error "x", fun _ => Except.error "x"⟩⟩
    "hello" Option.none,
   claim_C6_mode_tag_and_echo.2.1 (FileSystemTools.mk "/base")
    ⟨Except.error "x", fun _ => Except.error "x", Except.error "x",
      ⟨Except.error "x", Except.error "x", Except.error "x", "T"⟩,
      ⟨Except.error "x", Except.error "x", Except.error "x",
        Except.error "x"⟩,
      ⟨Except.error "x", Except.error "x", fun _ => Except.error "x"⟩⟩
    "hi" [("path", .str "doc.pdf"), ("type", .str "pdf")] (.str "doc.pdf")
    rfl rfl,
   claim_C6_mode_tag_and_echo.2.2.1 (FileSystemTools.mk "/base")
    ⟨Except.error "x", fun _ => Except.error "x", Except.error "x",
      ⟨Except.error "x", Except.error "x", Except.error "x", "T"⟩,
      ⟨Except.error "x", Except.error "x", Except.error "x",
        Except.error "x"⟩,
      ⟨Except.error "x", Except.error "x", fun _ => Except.error "x"⟩⟩
    "hi" [("path", .str "t.csv"), ("type", .str "csv")] "t.csv"
    rfl rfl (by decide),
   claim_C6_mode_tag_and_echo.2.2.2.1 (FileSystemTools.mk "/base")
    ⟨Except.ok "resp",
      fun _ => Except.ok (.dict [("type", .str "code_generation"),
        ("confidence", .num ⟨9, 10⟩)]),
      Except.error "x",
      ⟨Except.ok "print(1)", Except.ok "fine", Except.ok (), "T"⟩,
      ⟨Except.error "x", Except.error "x", Except.error "x",
        Except.error "x"⟩,
      ⟨Except.error "x", Except.error "x", fun _ => Except.error "x"⟩⟩
    "hi" (.str "code_generation") rfl rfl,
   claim_C6_mode_tag_and_echo.2.2.2.2 (FileSystemTools.mk "/base")
    ⟨Except.error "x", fun _ => Except.error "x", Except.ok "yo",
      ⟨Except.error "x", Except.error "x", Except.error "x", "T"⟩,
      ⟨Except.error "x", Except.error "x", Except.error "x",
        Except.error "x"⟩,
      ⟨Except.error "x", Except.error "x", fun _ => Except.error "x"⟩⟩
    "hi" (.str "general_chat") "yo" rfl rfl rfl⟩

end AgentFlow
